import Mathlib

/-!
ReSTIR-FG host pass (`DxvkReSTIRFG`).

A shallow embedding of `src/dxvk/rtx_render/rtx_restir_fg.{h,cpp}` and of
`src/dxvk/shaders/rtx/pass/restir_fg/restir_fg_binding_indices.h`.

* `uint32_t` values are natural numbers reduced with `u32`, `VkDeviceSize`
  and `VkDeviceAddress` values with `u64`, at every operation where the C++
  arithmetic has that width.
* An `Rc<...>` member is an `Option`: `none` is the null pointer.  A member
  function that dereferences a null `Rc` has no result (`none`).
* The rendering context is a recorder: every member function returns the list
  of commands it records through `ctx`, in program order.  GPU profiling zones
  (`ScopedGpuProfileZone`) are not recorded.
* `float` options hold the rational value of their decimal literal.
* The shaders are not among the source files: of each shader only the
  parameter declarations of its class are embedded, and the final combiner is
  modelled from section 4.6 of the spec.
-/

namespace dxvk

/-! ## Machine arithmetic -/

/-- Reduction to `uint32_t`. -/
def u32 (n : Nat) : Nat := n % 2 ^ 32

/-- Reduction to `VkDeviceSize` / `VkDeviceAddress` (`uint64_t`). -/
def u64 (n : Nat) : Nat := n % 2 ^ 64

/-- Bitwise complement of a 64-bit value. -/
def not64 (n : Nat) : Nat := 2 ^ 64 - 1 - u64 n

/-! ## Enumerations of `rtx_restir_fg.h` -/

inductive ReSTIRFGResamplingMode where
  | Temporal
  | Spatial
  | SpatioTemporal
  deriving DecidableEq, Repr

inductive ReSTIRFGCausticMode where
  | None
  | Direct
  | Temporal
  | Reservoir
  deriving DecidableEq, Repr

inductive ReSTIRFGBiasCorrectionMode where
  | None
  | Basic
  | Raytraced
  | Pairwise
  deriving DecidableEq, Repr

/-! ## Configuration options (`RTX_OPTION("rtx.restirFG", ...)`) -/

/-- The values of the static `rtx.restirFG` options. -/
structure Options where
  enable : Bool
  photonsPerFrame : Nat
  maxPhotonBounces : Nat
  photonRadius : Rat
  causticPhotonRadius : Rat
  globalPhotonRejectionProbability : Rat
  roughnessThreshold : Rat
  maxFinalGatherBounces : Nat
  useFinalGatherRIS : Bool
  resamplingMode : ReSTIRFGResamplingMode
  temporalHistoryLength : Nat
  spatialSamples : Nat
  spatialRadius : Rat
  disocclusionBoostSamples : Nat
  normalThreshold : Rat
  depthThreshold : Rat
  causticMode : ReSTIRFGCausticMode
  causticSpatialSamples : Nat
  causticSpatialRadius : Rat
  biasCorrectionMode : ReSTIRFGBiasCorrectionMode
  pairwiseMISCentralWeight : Rat
  maxLuminance : Rat
  minPhotonContribution : Rat
  usePhotonCulling : Bool
  useSplitCollection : Bool
  useStochasticCollection : Bool
  deriving DecidableEq, Repr

/-- The default value of every option, as written in the `RTX_OPTION` lines. -/
def Options.defaults : Options where
  enable := false
  photonsPerFrame := 100000
  maxPhotonBounces := 8
  photonRadius := 5 / 100
  causticPhotonRadius := 2 / 100
  globalPhotonRejectionProbability := 9 / 10
  roughnessThreshold := 25 / 100
  maxFinalGatherBounces := 4
  useFinalGatherRIS := true
  resamplingMode := ReSTIRFGResamplingMode.SpatioTemporal
  temporalHistoryLength := 30
  spatialSamples := 3
  spatialRadius := 20
  disocclusionBoostSamples := 8
  normalThreshold := 9 / 10
  depthThreshold := 1 / 10
  causticMode := ReSTIRFGCausticMode.Temporal
  causticSpatialSamples := 1
  causticSpatialRadius := 2
  biasCorrectionMode := ReSTIRFGBiasCorrectionMode.Pairwise
  pairwiseMISCentralWeight := 1 / 10
  maxLuminance := 10
  minPhotonContribution := 1 / 1000
  usePhotonCulling := true
  useSplitCollection := false
  useStochasticCollection := false

/-! ## Resources -/

structure VkExtent3D where
  width : Nat
  height : Nat
  depth : Nat
  deriving DecidableEq, Repr

/-- A created `DxvkBuffer`: its debug name, `info().size` and device address. -/
structure DxvkBuffer where
  name : String
  size : Nat
  deviceAddress : Nat
  deriving DecidableEq, Repr

/-- A created `DxvkAccelStructure`. -/
structure DxvkAccelStructure where
  name : String
  size : Nat
  deriving DecidableEq, Repr

/-- An image resource made by `Resources::createImageResource` or
`Resources::AliasedResource`. -/
structure ImageResource where
  name : String
  extent : VkExtent3D
  deriving DecidableEq, Repr

/-- `DxvkBufferSlice(buffer, rangeOffset, rangeLength)`; the constructor
stores the `Rc` without dereferencing it. -/
structure DxvkBufferSlice where
  buffer : Option DxvkBuffer
  offset : Nat
  length : Nat
  deriving DecidableEq, Repr

/-- What the code obtains from outside the class: device properties and
queries, the allocator, and `util::computeBlockCount`. -/
structure Externals where
  /-- Value of `minAccelerationStructureScratchOffsetAlignment`. -/
  scratchAlignment : Nat
  /-- Result `accelerationStructureSize` of
  `vkGetAccelerationStructureBuildSizesKHR` for the given maximum primitive
  counts. -/
  accelerationStructureSize : List Nat → Nat
  /-- Result `buildScratchSize` of the same query. -/
  buildScratchSize : List Nat → Nat
  /-- Device address of the buffer that `createBuffer` makes under a name. -/
  bufferAddress : String → Nat
  /-- The function `util::computeBlockCount(extent, blockSize)`. -/
  computeBlockCount : VkExtent3D → VkExtent3D → VkExtent3D

/-- The part of `Resources::RaytracingOutput` whose value the pass reads. -/
structure RaytracingOutput where
  m_compositeOutputExtent : VkExtent3D
  deriving DecidableEq, Repr

/-! ## The object state -/

/-- The data members of `DxvkReSTIRFG`. -/
structure DxvkReSTIRFG where
  m_photonBuffer : Option DxvkBuffer
  m_photonAABBBuffer_0 : Option DxvkBuffer
  m_photonAABBBuffer_1 : Option DxvkBuffer
  m_photonCounterBuffer : Option DxvkBuffer
  m_photonASBuffer : Option DxvkBuffer
  m_photonAccelStructure : Option DxvkAccelStructure
  m_photonScratchBuffer : Option DxvkBuffer
  m_photonAS : Option ImageResource
  m_fgReservoirBuffer : Option DxvkBuffer
  m_causticReservoirBuffer : Option DxvkBuffer
  m_fgSampleBuffer : Option DxvkBuffer
  m_causticSampleBuffer : Option DxvkBuffer
  m_surfaceBuffer : Option DxvkBuffer
  m_fgRadiance : Option ImageResource
  m_causticRadiance : Option ImageResource
  m_combinedRadiance : Option ImageResource
  m_frameCount : Nat
  m_canResample : Bool
  deriving DecidableEq, Repr

/-- The object right after `DxvkReSTIRFG::DxvkReSTIRFG(device)`: every
resource is null, `m_frameCount = 0`, `m_canResample = false`. -/
def DxvkReSTIRFG.constructed : DxvkReSTIRFG where
  m_photonBuffer := none
  m_photonAABBBuffer_0 := none
  m_photonAABBBuffer_1 := none
  m_photonCounterBuffer := none
  m_photonASBuffer := none
  m_photonAccelStructure := none
  m_photonScratchBuffer := none
  m_photonAS := none
  m_fgReservoirBuffer := none
  m_causticReservoirBuffer := none
  m_fgSampleBuffer := none
  m_causticSampleBuffer := none
  m_surfaceBuffer := none
  m_fgRadiance := none
  m_causticRadiance := none
  m_combinedRadiance := none
  m_frameCount := 0
  m_canResample := false

/-- The call `device->createBuffer(info, ..., name)` with `info.size = size`. -/
def createBuffer (x : Externals) (size : Nat) (name : String) : DxvkBuffer where
  name := name
  size := size
  deviceAddress := x.bufferAddress name

/-- Size in bytes of `VkAabbPositionsKHR` (six floats). -/
def sizeof_VkAabbPositionsKHR : Nat := 24

/-- The member function `DxvkReSTIRFG::createDownscaledResource`. -/
def createDownscaledResource (x : Externals) (o : Options)
    (downscaledExtent : VkExtent3D) (s : DxvkReSTIRFG) : DxvkReSTIRFG :=
  let pixelCount := u32 (downscaledExtent.width * downscaledExtent.height)
  let maxPhotons := u32 (o.photonsPerFrame * 2)
  let photonBufferSize := u32 (maxPhotons * 32)
  let aabbBufferSize := u64 (maxPhotons * sizeof_VkAabbPositionsKHR)
  let counterBufferSize := 4 * 4
  let reservoirSize := 16
  let reservoirBufferSize := u32 (u32 (pixelCount * 2) * reservoirSize)
  let fgSampleSize := 48
  let fgSampleBufferSize := u32 (u32 (pixelCount * 2) * fgSampleSize)
  let causticSampleSize := 32
  let causticSampleBufferSize := u32 (u32 (pixelCount * 2) * causticSampleSize)
  let surfaceSize := 48
  let surfaceBufferSize := u32 (u32 (pixelCount * 2) * surfaceSize)
  { s with
    m_photonBuffer := some (createBuffer x photonBufferSize "ReSTIR-FG Photon Buffer")
    m_photonAABBBuffer_0 := some (createBuffer x aabbBufferSize "ReSTIR-FG Global Photon AABB")
    m_photonAABBBuffer_1 := some (createBuffer x aabbBufferSize "ReSTIR-FG Caustic Photon AABB")
    m_photonCounterBuffer := some (createBuffer x counterBufferSize "ReSTIR-FG Photon Counter")
    m_fgReservoirBuffer := some (createBuffer x reservoirBufferSize "ReSTIR-FG FG Reservoir Buffer")
    m_causticReservoirBuffer :=
      some (createBuffer x reservoirBufferSize "ReSTIR-FG Caustic Reservoir Buffer")
    m_fgSampleBuffer := some (createBuffer x fgSampleBufferSize "ReSTIR-FG FG Sample Buffer")
    m_causticSampleBuffer :=
      some (createBuffer x causticSampleBufferSize "ReSTIR-FG Caustic Sample Buffer")
    m_surfaceBuffer := some (createBuffer x surfaceBufferSize "ReSTIR-FG Surface Buffer")
    m_fgRadiance := some ⟨"ReSTIR-FG FG Radiance", downscaledExtent⟩
    m_causticRadiance := some ⟨"ReSTIR-FG Caustic Radiance", downscaledExtent⟩
    m_combinedRadiance := some ⟨"ReSTIR-FG Combined", downscaledExtent⟩ }

/-- The member function `DxvkReSTIRFG::releaseDownscaledResource`. -/
def releaseDownscaledResource (s : DxvkReSTIRFG) : DxvkReSTIRFG :=
  { s with
    m_photonBuffer := none
    m_photonAABBBuffer_0 := none
    m_photonAABBBuffer_1 := none
    m_photonCounterBuffer := none
    m_photonASBuffer := none
    m_photonAccelStructure := none
    m_photonScratchBuffer := none
    m_fgReservoirBuffer := none
    m_causticReservoirBuffer := none
    m_fgSampleBuffer := none
    m_causticSampleBuffer := none
    m_surfaceBuffer := none
    m_fgRadiance := none
    m_causticRadiance := none
    m_combinedRadiance := none
    m_photonAS := none }

/-! ## Binding indices (`restir_fg_binding_indices.h`) -/

abbrev RESTIR_FG_TRACE_BINDING_PHOTON_BUFFER_OUTPUT : Nat := 40
abbrev RESTIR_FG_TRACE_BINDING_PHOTON_AABB_GLOBAL_OUTPUT : Nat := 41
abbrev RESTIR_FG_TRACE_BINDING_PHOTON_AABB_CAUSTIC_OUTPUT : Nat := 42
abbrev RESTIR_FG_TRACE_BINDING_PHOTON_COUNTER : Nat := 43

abbrev RESTIR_FG_COLLECT_BINDING_SHARED_FLAGS_INPUT : Nat := 40
abbrev RESTIR_FG_COLLECT_BINDING_SHARED_SURFACE_INDEX_INPUT : Nat := 41
abbrev RESTIR_FG_COLLECT_BINDING_PRIMARY_WORLD_SHADING_NORMAL_INPUT : Nat := 42
abbrev RESTIR_FG_COLLECT_BINDING_PRIMARY_PERCEPTUAL_ROUGHNESS_INPUT : Nat := 43
abbrev RESTIR_FG_COLLECT_BINDING_PRIMARY_VIEW_DIRECTION_INPUT : Nat := 44
abbrev RESTIR_FG_COLLECT_BINDING_PRIMARY_CONE_RADIUS_INPUT : Nat := 45
abbrev RESTIR_FG_COLLECT_BINDING_PRIMARY_WORLD_POSITION_INPUT : Nat := 46
abbrev RESTIR_FG_COLLECT_BINDING_PRIMARY_POSITION_ERROR_INPUT : Nat := 47
abbrev RESTIR_FG_COLLECT_BINDING_PHOTON_AS : Nat := 48
abbrev RESTIR_FG_COLLECT_BINDING_PHOTON_DATA : Nat := 49
abbrev RESTIR_FG_COLLECT_BINDING_PHOTON_AABB_GLOBAL : Nat := 50
abbrev RESTIR_FG_COLLECT_BINDING_PHOTON_AABB_CAUSTIC : Nat := 51
abbrev RESTIR_FG_COLLECT_BINDING_FG_RESERVOIR_OUTPUT : Nat := 52
abbrev RESTIR_FG_COLLECT_BINDING_FG_SAMPLE_OUTPUT : Nat := 53
abbrev RESTIR_FG_COLLECT_BINDING_CAUSTIC_RESERVOIR_OUTPUT : Nat := 54
abbrev RESTIR_FG_COLLECT_BINDING_CAUSTIC_SAMPLE_OUTPUT : Nat := 55
abbrev RESTIR_FG_COLLECT_BINDING_SURFACE_DATA_OUTPUT : Nat := 56

abbrev RESTIR_FG_RESAMPLE_BINDING_MVEC_INPUT : Nat := 40
abbrev RESTIR_FG_RESAMPLE_BINDING_WORLD_POSITION_INPUT : Nat := 41
abbrev RESTIR_FG_RESAMPLE_BINDING_WORLD_NORMAL_INPUT : Nat := 42
abbrev RESTIR_FG_RESAMPLE_BINDING_RESERVOIR_PREV : Nat := 43
abbrev RESTIR_FG_RESAMPLE_BINDING_SAMPLE_PREV : Nat := 44
abbrev RESTIR_FG_RESAMPLE_BINDING_SURFACE_PREV : Nat := 45
abbrev RESTIR_FG_RESAMPLE_BINDING_SURFACE_CURR : Nat := 46
abbrev RESTIR_FG_RESAMPLE_BINDING_RESERVOIR_CURR : Nat := 47
abbrev RESTIR_FG_RESAMPLE_BINDING_SAMPLE_CURR : Nat := 48

abbrev RESTIR_FG_CAUSTIC_RESAMPLE_BINDING_MVEC_INPUT : Nat := 40
abbrev RESTIR_FG_CAUSTIC_RESAMPLE_BINDING_WORLD_POSITION_INPUT : Nat := 41
abbrev RESTIR_FG_CAUSTIC_RESAMPLE_BINDING_WORLD_NORMAL_INPUT : Nat := 42
abbrev RESTIR_FG_CAUSTIC_RESAMPLE_BINDING_RESERVOIR_PREV : Nat := 43
abbrev RESTIR_FG_CAUSTIC_RESAMPLE_BINDING_SAMPLE_PREV : Nat := 44
abbrev RESTIR_FG_CAUSTIC_RESAMPLE_BINDING_RESERVOIR_CURR : Nat := 45
abbrev RESTIR_FG_CAUSTIC_RESAMPLE_BINDING_SAMPLE_CURR : Nat := 46

abbrev RESTIR_FG_FINAL_SHADING_BINDING_WORLD_POSITION_INPUT : Nat := 40
abbrev RESTIR_FG_FINAL_SHADING_BINDING_WORLD_NORMAL_INPUT : Nat := 41
abbrev RESTIR_FG_FINAL_SHADING_BINDING_PERCEPTUAL_ROUGHNESS_INPUT : Nat := 42
abbrev RESTIR_FG_FINAL_SHADING_BINDING_ALBEDO_INPUT : Nat := 43
abbrev RESTIR_FG_FINAL_SHADING_BINDING_FG_RESERVOIR : Nat := 44
abbrev RESTIR_FG_FINAL_SHADING_BINDING_FG_SAMPLE : Nat := 45
abbrev RESTIR_FG_FINAL_SHADING_BINDING_CAUSTIC_RESERVOIR : Nat := 46
abbrev RESTIR_FG_FINAL_SHADING_BINDING_CAUSTIC_SAMPLE : Nat := 47
abbrev RESTIR_FG_FINAL_SHADING_BINDING_OUTPUT : Nat := 48
abbrev RESTIR_FG_FINAL_SHADING_BINDING_CAUSTIC_OUTPUT : Nat := 49

/-! ## Recorded commands -/

/-- The compute shaders declared in the anonymous namespace of the `.cpp`. -/
inductive Shader where
  | ReSTIRFGTracePhotonsShader
  | ReSTIRFGCollectPhotonsShader
  | ReSTIRFGResampleShader
  | ReSTIRFGCausticResampleShader
  | ReSTIRFGFinalShadingShader
  deriving DecidableEq, Repr

/-- The members of `rtOutput` whose views the pass binds. -/
inductive RtView where
  | m_sharedFlags
  | m_sharedSurfaceIndex
  | m_primaryWorldShadingNormal
  | m_primaryPerceptualRoughness
  | m_primaryViewDirection
  | m_primaryConeRadius
  | getCurrentPrimaryWorldPositionWorldTriangleNormal
  | m_primaryPositionError
  | m_primaryVirtualMotionVector
  | m_primaryAlbedo
  | m_primaryIndirectDiffuseRadiance
  | m_primaryIndirectSpecularRadiance
  deriving DecidableEq, Repr

/-- The type `Resources::AccessType`, for views of aliased resources. -/
inductive AccessType where
  | Read
  | Write
  deriving DecidableEq, Repr

/-- The type `DxvkAccess`, for `trackResource`. -/
inductive DxvkAccess where
  | Read
  | Write
  deriving DecidableEq, Repr

/-- The pipeline stage masks that occur in the barriers. -/
inductive PipelineStage where
  | COMPUTE_SHADER
  | ACCELERATION_STRUCTURE_BUILD
  deriving DecidableEq, Repr

/-- The access masks that occur in the barriers. -/
inductive AccessMask where
  | SHADER_READ
  | SHADER_WRITE
  | ACCELERATION_STRUCTURE_READ
  | ACCELERATION_STRUCTURE_WRITE
  deriving DecidableEq, Repr

/-- The type `VkBuildAccelerationStructureModeKHR`. -/
inductive BuildMode where
  | BUILD
  | UPDATE
  deriving DecidableEq, Repr

/-- A `VkAccelerationStructureGeometryKHR` of type `VK_GEOMETRY_TYPE_AABBS_KHR`. -/
structure AabbGeometry where
  stride : Nat
  deviceAddress : Nat
  deriving DecidableEq, Repr

/-- The fields of `VkAccelerationStructureBuildGeometryInfoKHR` that the code
sets to something other than a fixed flag. -/
structure BuildGeometryInfo where
  mode : BuildMode
  srcAccelerationStructure : Option DxvkAccelStructure
  dstAccelerationStructure : Option DxvkAccelStructure
  geometries : List AabbGeometry
  scratchDataDeviceAddress : Nat
  deriving DecidableEq, Repr

/-- The type `VkAccelerationStructureBuildRangeInfoKHR`. -/
structure BuildRangeInfo where
  primitiveCount : Nat
  primitiveOffset : Nat
  firstVertex : Nat
  transformOffset : Nat
  deriving DecidableEq, Repr

/-- One call recorded through the context or its command list. -/
inductive Cmd where
  | clearBuffer (buffer : DxvkBuffer) (offset length value : Nat)
  | bindCommonRayTracingResources
  | bindResourceBuffer (binding : Nat) (slice : DxvkBufferSlice)
  | bindResourceView (binding : Nat) (view : RtView) (access : Option AccessType)
  | bindAccelerationStructure (binding : Nat) (accel : Option DxvkAccelStructure)
  | bindShader (shader : Shader)
  | dispatch (x y z : Nat)
  | accessBuffer (buffer : DxvkBuffer) (srcStages : PipelineStage) (srcAccess : AccessMask)
      (dstStages : PipelineStage) (dstAccess : AccessMask)
  | recordCommands
  | vkCmdBuildAccelerationStructuresKHR (buildInfo : BuildGeometryInfo)
      (buildRanges : List BuildRangeInfo)
  | trackResource (access : DxvkAccess) (buffer : DxvkBuffer)
  deriving DecidableEq, Repr

/-- The six member functions that `dispatch` calls. -/
inductive Pass where
  | tracePhotons
  | buildPhotonAccelerationStructure
  | collectPhotons
  | resampleFinalGather
  | resampleCaustics
  | finalShading
  deriving DecidableEq, Repr

/-- One call of a pass function together with the commands it recorded. -/
structure PassWork where
  pass : Pass
  cmds : List Cmd
  deriving DecidableEq, Repr

/-! ## The pass functions -/

/-- The value `x - 1` in 64-bit unsigned arithmetic. -/
def dec64 (n : Nat) : Nat := u64 (n + (2 ^ 64 - 1))

/-- Index of the current generation, `m_frameCount % 2`. -/
def currIdx (frameCount : Nat) : Nat := frameCount % 2

/-- Index of the previous generation, `(m_frameCount + 1) % 2`. -/
def prevIdx (frameCount : Nat) : Nat := u32 (frameCount + 1) % 2

/-- The slice `DxvkBufferSlice(buffer, idx * pixelCount * elem, pixelCount * elem)`,
offset and length computed in `uint32_t`. -/
def generationSlice (buffer : Option DxvkBuffer) (idx pixelCount elem : Nat) :
    DxvkBufferSlice where
  buffer := buffer
  offset := u32 (u32 (idx * pixelCount) * elem)
  length := u32 (pixelCount * elem)

/-- The slice `DxvkBufferSlice(buffer, 0, buffer->info().size)`. -/
def wholeSlice (buffer : DxvkBuffer) : DxvkBufferSlice where
  buffer := some buffer
  offset := 0
  length := buffer.size

/-- The member function `DxvkReSTIRFG::tracePhotons`. -/
def tracePhotons (o : Options) (s : DxvkReSTIRFG) : Option (List Cmd) := do
  let counter ← s.m_photonCounterBuffer
  let photon ← s.m_photonBuffer
  let aabb0 ← s.m_photonAABBBuffer_0
  let aabb1 ← s.m_photonAABBBuffer_1
  let photonWorkgroups := u32 (o.photonsPerFrame + 255) / 256
  pure [
    Cmd.clearBuffer counter 0 counter.size 0,
    Cmd.bindCommonRayTracingResources,
    Cmd.bindResourceBuffer RESTIR_FG_TRACE_BINDING_PHOTON_BUFFER_OUTPUT (wholeSlice photon),
    Cmd.bindResourceBuffer RESTIR_FG_TRACE_BINDING_PHOTON_AABB_GLOBAL_OUTPUT (wholeSlice aabb0),
    Cmd.bindResourceBuffer RESTIR_FG_TRACE_BINDING_PHOTON_AABB_CAUSTIC_OUTPUT (wholeSlice aabb1),
    Cmd.bindResourceBuffer RESTIR_FG_TRACE_BINDING_PHOTON_COUNTER (wholeSlice counter),
    Cmd.bindShader Shader.ReSTIRFGTracePhotonsShader,
    Cmd.dispatch photonWorkgroups 1 1 ]

/-- The block "Create or resize acceleration structure buffer if needed" of
`buildPhotonAccelerationStructure`: the condition is
`!m_photonAS.image.ptr() || m_photonASBuffer == nullptr ||
m_photonASBuffer->info().size < sizeInfo.accelerationStructureSize`. -/
def createOrResizeAccelStructure (x : Externals) (accelerationStructureSize : Nat)
    (s : DxvkReSTIRFG) : DxvkReSTIRFG :=
  if s.m_photonAS.isNone ||
      (match s.m_photonASBuffer with
        | none => true
        | some b => decide (b.size < accelerationStructureSize)) then
    { s with
      m_photonASBuffer :=
        some (createBuffer x accelerationStructureSize "ReSTIR-FG Photon AS Buffer")
      m_photonAccelStructure :=
        some ⟨"ReSTIR-FG Photon BLAS", accelerationStructureSize⟩ }
  else s

/-- The block "Create scratch buffer if needed" of
`buildPhotonAccelerationStructure`: the condition is
`m_photonScratchBuffer == nullptr ||
m_photonScratchBuffer->info().size < requiredScratchSize`. -/
def createScratchBuffer (x : Externals) (requiredScratchSize : Nat)
    (s : DxvkReSTIRFG) : DxvkReSTIRFG :=
  if (match s.m_photonScratchBuffer with
        | none => true
        | some b => decide (b.size < requiredScratchSize)) then
    { s with
      m_photonScratchBuffer :=
        some (createBuffer x requiredScratchSize "ReSTIR-FG Photon Scratch") }
  else s

/-- The statement `scratchAddress = (scratchAddress + scratchAlignment - 1) &
~(scratchAlignment - 1)` on `VkDeviceAddress` values. -/
def alignScratchAddress (scratchAddress scratchAlignment : Nat) : Nat :=
  Nat.land (dec64 (u64 (scratchAddress + scratchAlignment))) (not64 (dec64 scratchAlignment))

/-- The member function `DxvkReSTIRFG::buildPhotonAccelerationStructure`. -/
def buildPhotonAccelerationStructure (x : Externals) (o : Options) (s : DxvkReSTIRFG) :
    Option (DxvkReSTIRFG × List Cmd) := do
  let maxPhotonsPerType := o.photonsPerFrame
  let aabb0 ← s.m_photonAABBBuffer_0
  let geometryGlobal : AabbGeometry := ⟨sizeof_VkAabbPositionsKHR, aabb0.deviceAddress⟩
  let aabb1 ← s.m_photonAABBBuffer_1
  let geometryCaustic : AabbGeometry := ⟨sizeof_VkAabbPositionsKHR, aabb1.deviceAddress⟩
  let geometries := [geometryGlobal, geometryCaustic]
  -- Get size requirements
  let maxPrimitiveCounts := [maxPhotonsPerType, maxPhotonsPerType]
  let accelerationStructureSize := x.accelerationStructureSize maxPrimitiveCounts
  let buildScratchSize := x.buildScratchSize maxPrimitiveCounts
  -- Create or resize acceleration structure buffer if needed
  let s1 := createOrResizeAccelStructure x accelerationStructureSize s
  let dstAccelerationStructure ← s1.m_photonAccelStructure
  -- Create scratch buffer if needed
  let scratchAlignment := x.scratchAlignment
  let requiredScratchSize := u64 (buildScratchSize + scratchAlignment)
  let s2 := createScratchBuffer x requiredScratchSize s1
  -- Align scratch buffer address
  let scratch ← s2.m_photonScratchBuffer
  let scratchAddress := alignScratchAddress scratch.deviceAddress scratchAlignment
  let buildInfo : BuildGeometryInfo :=
    { mode := BuildMode.BUILD
      srcAccelerationStructure := none
      dstAccelerationStructure := some dstAccelerationStructure
      geometries := geometries
      scratchDataDeviceAddress := scratchAddress }
  -- Build ranges: max counts, the counter is not read back
  let buildRanges : List BuildRangeInfo :=
    [⟨maxPhotonsPerType, 0, 0, 0⟩, ⟨maxPhotonsPerType, 0, 0, 0⟩]
  let asBuffer ← s2.m_photonASBuffer
  pure (s2, [
    Cmd.accessBuffer aabb0 PipelineStage.COMPUTE_SHADER AccessMask.SHADER_WRITE
      PipelineStage.ACCELERATION_STRUCTURE_BUILD AccessMask.SHADER_READ,
    Cmd.accessBuffer aabb1 PipelineStage.COMPUTE_SHADER AccessMask.SHADER_WRITE
      PipelineStage.ACCELERATION_STRUCTURE_BUILD AccessMask.SHADER_READ,
    Cmd.recordCommands,
    Cmd.vkCmdBuildAccelerationStructuresKHR buildInfo buildRanges,
    Cmd.trackResource DxvkAccess.Read aabb0,
    Cmd.trackResource DxvkAccess.Read aabb1,
    Cmd.trackResource DxvkAccess.Write scratch,
    Cmd.trackResource DxvkAccess.Write asBuffer,
    Cmd.accessBuffer asBuffer PipelineStage.ACCELERATION_STRUCTURE_BUILD
      AccessMask.ACCELERATION_STRUCTURE_WRITE
      PipelineStage.COMPUTE_SHADER AccessMask.ACCELERATION_STRUCTURE_READ,
    Cmd.recordCommands ])

/-- The member function `DxvkReSTIRFG::collectPhotons`. -/
def collectPhotons (x : Externals) (rtOutput : RaytracingOutput) (s : DxvkReSTIRFG) :
    Option (List Cmd) := do
  let numRaysExtent := rtOutput.m_compositeOutputExtent
  let workgroups := x.computeBlockCount numRaysExtent ⟨16, 16, 1⟩
  let photon ← s.m_photonBuffer
  let aabb0 ← s.m_photonAABBBuffer_0
  let aabb1 ← s.m_photonAABBBuffer_1
  let frameIdx := currIdx s.m_frameCount
  let pixelCount := u32 (numRaysExtent.width * numRaysExtent.height)
  pure [
    Cmd.bindCommonRayTracingResources,
    Cmd.bindResourceView RESTIR_FG_COLLECT_BINDING_SHARED_FLAGS_INPUT
      RtView.m_sharedFlags none,
    Cmd.bindResourceView RESTIR_FG_COLLECT_BINDING_SHARED_SURFACE_INDEX_INPUT
      RtView.m_sharedSurfaceIndex (some AccessType.Read),
    Cmd.bindResourceView RESTIR_FG_COLLECT_BINDING_PRIMARY_WORLD_SHADING_NORMAL_INPUT
      RtView.m_primaryWorldShadingNormal none,
    Cmd.bindResourceView RESTIR_FG_COLLECT_BINDING_PRIMARY_PERCEPTUAL_ROUGHNESS_INPUT
      RtView.m_primaryPerceptualRoughness none,
    Cmd.bindResourceView RESTIR_FG_COLLECT_BINDING_PRIMARY_VIEW_DIRECTION_INPUT
      RtView.m_primaryViewDirection none,
    Cmd.bindResourceView RESTIR_FG_COLLECT_BINDING_PRIMARY_CONE_RADIUS_INPUT
      RtView.m_primaryConeRadius none,
    Cmd.bindResourceView RESTIR_FG_COLLECT_BINDING_PRIMARY_WORLD_POSITION_INPUT
      RtView.getCurrentPrimaryWorldPositionWorldTriangleNormal (some AccessType.Read),
    Cmd.bindResourceView RESTIR_FG_COLLECT_BINDING_PRIMARY_POSITION_ERROR_INPUT
      RtView.m_primaryPositionError none,
    Cmd.bindAccelerationStructure RESTIR_FG_COLLECT_BINDING_PHOTON_AS s.m_photonAccelStructure,
    Cmd.bindResourceBuffer RESTIR_FG_COLLECT_BINDING_PHOTON_DATA (wholeSlice photon),
    Cmd.bindResourceBuffer RESTIR_FG_COLLECT_BINDING_PHOTON_AABB_GLOBAL (wholeSlice aabb0),
    Cmd.bindResourceBuffer RESTIR_FG_COLLECT_BINDING_PHOTON_AABB_CAUSTIC (wholeSlice aabb1),
    Cmd.bindResourceBuffer RESTIR_FG_COLLECT_BINDING_FG_RESERVOIR_OUTPUT
      (generationSlice s.m_fgReservoirBuffer frameIdx pixelCount 16),
    Cmd.bindResourceBuffer RESTIR_FG_COLLECT_BINDING_FG_SAMPLE_OUTPUT
      (generationSlice s.m_fgSampleBuffer frameIdx pixelCount 48),
    Cmd.bindResourceBuffer RESTIR_FG_COLLECT_BINDING_CAUSTIC_RESERVOIR_OUTPUT
      (generationSlice s.m_causticReservoirBuffer frameIdx pixelCount 16),
    Cmd.bindResourceBuffer RESTIR_FG_COLLECT_BINDING_CAUSTIC_SAMPLE_OUTPUT
      (generationSlice s.m_causticSampleBuffer frameIdx pixelCount 32),
    Cmd.bindResourceBuffer RESTIR_FG_COLLECT_BINDING_SURFACE_DATA_OUTPUT
      (generationSlice s.m_surfaceBuffer frameIdx pixelCount 48),
    Cmd.bindShader Shader.ReSTIRFGCollectPhotonsShader,
    Cmd.dispatch workgroups.width workgroups.height workgroups.depth ]

/-- The member function `DxvkReSTIRFG::resampleFinalGather`. -/
def resampleFinalGather (x : Externals) (rtOutput : RaytracingOutput) (s : DxvkReSTIRFG) :
    List Cmd :=
  let numRaysExtent := rtOutput.m_compositeOutputExtent
  let workgroups := x.computeBlockCount numRaysExtent ⟨16, 16, 1⟩
  let currIdx := currIdx s.m_frameCount
  let prevIdx := prevIdx s.m_frameCount
  let pixelCount := u32 (numRaysExtent.width * numRaysExtent.height)
  [ Cmd.bindCommonRayTracingResources,
    Cmd.bindResourceView RESTIR_FG_RESAMPLE_BINDING_MVEC_INPUT
      RtView.m_primaryVirtualMotionVector (some AccessType.Read),
    Cmd.bindResourceView RESTIR_FG_RESAMPLE_BINDING_WORLD_POSITION_INPUT
      RtView.getCurrentPrimaryWorldPositionWorldTriangleNormal (some AccessType.Read),
    Cmd.bindResourceView RESTIR_FG_RESAMPLE_BINDING_WORLD_NORMAL_INPUT
      RtView.m_primaryWorldShadingNormal none,
    Cmd.bindResourceBuffer RESTIR_FG_RESAMPLE_BINDING_RESERVOIR_PREV
      (generationSlice s.m_fgReservoirBuffer prevIdx pixelCount 16),
    Cmd.bindResourceBuffer RESTIR_FG_RESAMPLE_BINDING_SAMPLE_PREV
      (generationSlice s.m_fgSampleBuffer prevIdx pixelCount 48),
    Cmd.bindResourceBuffer RESTIR_FG_RESAMPLE_BINDING_SURFACE_PREV
      (generationSlice s.m_surfaceBuffer prevIdx pixelCount 48),
    Cmd.bindResourceBuffer RESTIR_FG_RESAMPLE_BINDING_SURFACE_CURR
      (generationSlice s.m_surfaceBuffer currIdx pixelCount 48),
    Cmd.bindResourceBuffer RESTIR_FG_RESAMPLE_BINDING_RESERVOIR_CURR
      (generationSlice s.m_fgReservoirBuffer currIdx pixelCount 16),
    Cmd.bindResourceBuffer RESTIR_FG_RESAMPLE_BINDING_SAMPLE_CURR
      (generationSlice s.m_fgSampleBuffer currIdx pixelCount 48),
    Cmd.bindShader Shader.ReSTIRFGResampleShader,
    Cmd.dispatch workgroups.width workgroups.height workgroups.depth ]

/-- The member function `DxvkReSTIRFG::resampleCaustics`. -/
def resampleCaustics (x : Externals) (rtOutput : RaytracingOutput) (s : DxvkReSTIRFG) :
    List Cmd :=
  let numRaysExtent := rtOutput.m_compositeOutputExtent
  let workgroups := x.computeBlockCount numRaysExtent ⟨16, 16, 1⟩
  let currIdx := currIdx s.m_frameCount
  let prevIdx := prevIdx s.m_frameCount
  let pixelCount := u32 (numRaysExtent.width * numRaysExtent.height)
  [ Cmd.bindCommonRayTracingResources,
    Cmd.bindResourceView RESTIR_FG_CAUSTIC_RESAMPLE_BINDING_MVEC_INPUT
      RtView.m_primaryVirtualMotionVector (some AccessType.Read),
    Cmd.bindResourceView RESTIR_FG_CAUSTIC_RESAMPLE_BINDING_WORLD_POSITION_INPUT
      RtView.getCurrentPrimaryWorldPositionWorldTriangleNormal (some AccessType.Read),
    Cmd.bindResourceView RESTIR_FG_CAUSTIC_RESAMPLE_BINDING_WORLD_NORMAL_INPUT
      RtView.m_primaryWorldShadingNormal none,
    Cmd.bindResourceBuffer RESTIR_FG_CAUSTIC_RESAMPLE_BINDING_RESERVOIR_PREV
      (generationSlice s.m_causticReservoirBuffer prevIdx pixelCount 16),
    Cmd.bindResourceBuffer RESTIR_FG_CAUSTIC_RESAMPLE_BINDING_SAMPLE_PREV
      (generationSlice s.m_causticSampleBuffer prevIdx pixelCount 32),
    Cmd.bindResourceBuffer RESTIR_FG_CAUSTIC_RESAMPLE_BINDING_RESERVOIR_CURR
      (generationSlice s.m_causticReservoirBuffer currIdx pixelCount 16),
    Cmd.bindResourceBuffer RESTIR_FG_CAUSTIC_RESAMPLE_BINDING_SAMPLE_CURR
      (generationSlice s.m_causticSampleBuffer currIdx pixelCount 32),
    Cmd.bindShader Shader.ReSTIRFGCausticResampleShader,
    Cmd.dispatch workgroups.width workgroups.height workgroups.depth ]

/-- The member function `DxvkReSTIRFG::finalShading`. -/
def finalShading (x : Externals) (rtOutput : RaytracingOutput) (s : DxvkReSTIRFG) :
    List Cmd :=
  let numRaysExtent := rtOutput.m_compositeOutputExtent
  let workgroups := x.computeBlockCount numRaysExtent ⟨16, 16, 1⟩
  let currIdx := currIdx s.m_frameCount
  let pixelCount := u32 (numRaysExtent.width * numRaysExtent.height)
  [ Cmd.bindCommonRayTracingResources,
    Cmd.bindResourceView RESTIR_FG_FINAL_SHADING_BINDING_WORLD_POSITION_INPUT
      RtView.getCurrentPrimaryWorldPositionWorldTriangleNormal (some AccessType.Read),
    Cmd.bindResourceView RESTIR_FG_FINAL_SHADING_BINDING_WORLD_NORMAL_INPUT
      RtView.m_primaryWorldShadingNormal none,
    Cmd.bindResourceView RESTIR_FG_FINAL_SHADING_BINDING_PERCEPTUAL_ROUGHNESS_INPUT
      RtView.m_primaryPerceptualRoughness none,
    Cmd.bindResourceView RESTIR_FG_FINAL_SHADING_BINDING_ALBEDO_INPUT
      RtView.m_primaryAlbedo none,
    Cmd.bindResourceBuffer RESTIR_FG_FINAL_SHADING_BINDING_FG_RESERVOIR
      (generationSlice s.m_fgReservoirBuffer currIdx pixelCount 16),
    Cmd.bindResourceBuffer RESTIR_FG_FINAL_SHADING_BINDING_FG_SAMPLE
      (generationSlice s.m_fgSampleBuffer currIdx pixelCount 48),
    Cmd.bindResourceBuffer RESTIR_FG_FINAL_SHADING_BINDING_CAUSTIC_RESERVOIR
      (generationSlice s.m_causticReservoirBuffer currIdx pixelCount 16),
    Cmd.bindResourceBuffer RESTIR_FG_FINAL_SHADING_BINDING_CAUSTIC_SAMPLE
      (generationSlice s.m_causticSampleBuffer currIdx pixelCount 32),
    Cmd.bindResourceView RESTIR_FG_FINAL_SHADING_BINDING_OUTPUT
      RtView.m_primaryIndirectDiffuseRadiance (some AccessType.Write),
    Cmd.bindResourceView RESTIR_FG_FINAL_SHADING_BINDING_CAUSTIC_OUTPUT
      RtView.m_primaryIndirectSpecularRadiance (some AccessType.Write),
    Cmd.bindShader Shader.ReSTIRFGFinalShadingShader,
    Cmd.dispatch workgroups.width workgroups.height workgroups.depth ]

/-- The member function `DxvkReSTIRFG::dispatch`.  `isActive` is the value of
`RtxPass::isActive()`, a member of the base class.  The result is the new
object state and the pass functions called, in order, each with the commands
it recorded. -/
def dispatch (x : Externals) (o : Options) (rtOutput : RaytracingOutput)
    (isActive : Bool) (s : DxvkReSTIRFG) : Option (DxvkReSTIRFG × List PassWork) :=
  if !isActive then
    some (s, [])
  else do
    -- Step 1: Trace photons from light sources
    let trace ← tracePhotons o s
    -- Step 2: Build photon acceleration structure
    let built ← buildPhotonAccelerationStructure x o s
    let s1 := built.1
    -- Step 3: Collect photons at surfaces and initialize reservoirs
    let collect ← collectPhotons x rtOutput s1
    -- Step 4: Resample Final Gather reservoirs
    let resampleFG : List PassWork :=
      if s1.m_canResample && decide (o.resamplingMode ≠ ReSTIRFGResamplingMode.Spatial) then
        [⟨Pass.resampleFinalGather, resampleFinalGather x rtOutput s1⟩]
      else []
    -- Step 5: Resample Caustic reservoirs
    let resampleC : List PassWork :=
      if s1.m_canResample && decide (o.causticMode = ReSTIRFGCausticMode.Reservoir) then
        [⟨Pass.resampleCaustics, resampleCaustics x rtOutput s1⟩]
      else []
    -- Step 6: Final shading
    let final := finalShading x rtOutput s1
    -- Update frame tracking
    pure ({ s1 with m_frameCount := u32 (s1.m_frameCount + 1), m_canResample := true },
      [⟨Pass.tracePhotons, trace⟩,
       ⟨Pass.buildPhotonAccelerationStructure, built.2⟩,
       ⟨Pass.collectPhotons, collect⟩]
      ++ resampleFG ++ resampleC ++
      [⟨Pass.finalShading, final⟩])

/-! ## Presets and operation sequences -/

/-- The static member function `DxvkReSTIRFG::setToNRDPreset`. -/
def setToNRDPreset (o : Options) : Options :=
  { o with
    spatialSamples := 2
    spatialRadius := 15
    temporalHistoryLength := 20 }

/-- The static member function `DxvkReSTIRFG::setToRayReconstructionPreset`. -/
def setToRayReconstructionPreset (o : Options) : Options :=
  { o with
    spatialSamples := 4
    spatialRadius := 25
    temporalHistoryLength := 40
    biasCorrectionMode := ReSTIRFGBiasCorrectionMode.Pairwise }

/-- The static options together with one `DxvkReSTIRFG` object. -/
structure World where
  options : Options
  obj : DxvkReSTIRFG
  deriving DecidableEq, Repr

/-- The operations of the class that callers can invoke, plus an arbitrary
edit of the options (the settings window or a configuration file). -/
inductive Op where
  | dispatch (rtOutput : RaytracingOutput) (isActive : Bool)
  | createDownscaledResource (downscaledExtent : VkExtent3D)
  | releaseDownscaledResource
  | setToNRDPreset
  | setToRayReconstructionPreset
  | setOptions (o : Options)
  deriving DecidableEq, Repr

/-- One operation; `none` when it dereferences a null resource. -/
def step (x : Externals) (w : World) : Op → Option World
  | Op.dispatch rtOutput isActive =>
      (dispatch x w.options rtOutput isActive w.obj).map fun r => { w with obj := r.1 }
  | Op.createDownscaledResource e =>
      some { w with obj := createDownscaledResource x w.options e w.obj }
  | Op.releaseDownscaledResource =>
      some { w with obj := releaseDownscaledResource w.obj }
  | Op.setToNRDPreset => some { w with options := setToNRDPreset w.options }
  | Op.setToRayReconstructionPreset =>
      some { w with options := setToRayReconstructionPreset w.options }
  | Op.setOptions o => some { w with options := o }

/-- A sequence of operations, left to right. -/
def run (x : Externals) : List Op → World → Option World
  | [], w => some w
  | op :: ops, w => (step x w op).bind (run x ops)

/-- Number of active dispatches in a sequence of operations. -/
def activeDispatches : List Op → Nat
  | [] => 0
  | Op.dispatch _ true :: ops => activeDispatches ops + 1
  | _ :: ops => activeDispatches ops

/-- The pass functions called by a dispatch, in order. -/
def passesOf (r : Option (DxvkReSTIRFG × List PassWork)) : Option (List Pass) :=
  r.map fun p => p.2.map PassWork.pass

/-- The resources that an active dispatch dereferences are present: the photon
buffer, both AABB buffers and the counter buffer are non-null, and either the
legacy resource `m_photonAS` is null (so that the acceleration structure is
created by the dispatch) or the acceleration structure exists already. -/
def DxvkReSTIRFG.ready (s : DxvkReSTIRFG) : Bool :=
  s.m_photonBuffer.isSome && s.m_photonAABBBuffer_0.isSome &&
  s.m_photonAABBBuffer_1.isSome && s.m_photonCounterBuffer.isSome &&
  (s.m_photonAS.isNone || s.m_photonAccelStructure.isSome)

/-! ## Concrete inputs -/

/-- A device with 128-byte scratch alignment and `util::computeBlockCount` as
the rounded-up quotient. -/
def exampleExternals : Externals where
  scratchAlignment := 128
  accelerationStructureSize := fun counts => 64 * counts.sum + 256
  buildScratchSize := fun counts => 16 * counts.sum + 1024
  bufferAddress := fun name => 256 * (name.toList.map Char.toNat).sum
  computeBlockCount := fun e b =>
    ⟨(e.width + b.width - 1) / b.width, (e.height + b.height - 1) / b.height,
      (e.depth + b.depth - 1) / b.depth⟩

/-- A 1920 x 1080 render target. -/
def exampleExtent : VkExtent3D := ⟨1920, 1080, 1⟩

/-- The raytracing output of a 1920 x 1080 frame. -/
def exampleOutput : RaytracingOutput := ⟨exampleExtent⟩

/-- The object after construction and resource creation with default options. -/
def exampleCreated : DxvkReSTIRFG :=
  createDownscaledResource exampleExternals Options.defaults exampleExtent
    DxvkReSTIRFG.constructed

/-! ## Derived definitions used in the statements -/

/-- The object after the two creation blocks of the index build. -/
def afterBuild (x : Externals) (o : Options) (s : DxvkReSTIRFG) : DxvkReSTIRFG :=
  createScratchBuffer x
    (u64 (x.buildScratchSize [o.photonsPerFrame, o.photonsPerFrame] + x.scratchAlignment))
    (createOrResizeAccelStructure x
      (x.accelerationStructureSize [o.photonsPerFrame, o.photonsPerFrame]) s)

/-- The object after an active dispatch that ran to its end. -/
def afterDispatch (x : Externals) (o : Options) (s : DxvkReSTIRFG) : DxvkReSTIRFG :=
  { afterBuild x o s with
    m_frameCount := u32 ((afterBuild x o s).m_frameCount + 1)
    m_canResample := true }

/-- The passes of one dispatch in the order of the data flow. -/
def pipelineOrder : List Pass :=
  [Pass.tracePhotons, Pass.buildPhotonAccelerationStructure, Pass.collectPhotons,
   Pass.resampleFinalGather, Pass.resampleCaustics, Pass.finalShading]

/-- Default options with `causticMode = Reservoir`. -/
def exampleReservoirOptions : Options :=
  { Options.defaults with causticMode := ReSTIRFGCausticMode.Reservoir }

/-- The object after creation and one active dispatch with default options. -/
def exampleWarm : DxvkReSTIRFG :=
  afterDispatch exampleExternals Options.defaults exampleCreated

/-- The pass functions an active dispatch calls when it returns: the three
producer passes, the two guarded resample passes, and final shading. -/
def passesFor (o : Options) (s : DxvkReSTIRFG) : List Pass :=
  [Pass.tracePhotons, Pass.buildPhotonAccelerationStructure, Pass.collectPhotons]
  ++ (if s.m_canResample && decide (o.resamplingMode ≠ ReSTIRFGResamplingMode.Spatial)
      then [Pass.resampleFinalGather] else [])
  ++ (if s.m_canResample && decide (o.causticMode = ReSTIRFGCausticMode.Reservoir)
      then [Pass.resampleCaustics] else [])
  ++ [Pass.finalShading]

/-- Default options with `resamplingMode = Spatial`. -/
def exampleSpatialOptions : Options :=
  { Options.defaults with resamplingMode := ReSTIRFGResamplingMode.Spatial }

/-- Default options with `causticMode = None`. -/
def exampleNoCausticOptions : Options :=
  { Options.defaults with causticMode := ReSTIRFGCausticMode.None }

/-- All commands of a dispatch, in recording order. -/
def commandsOf : List PassWork → List Cmd
  | [] => []
  | w :: ws => w.cmds ++ commandsOf ws

/-- The commands recorded by the calls of one pass function. -/
def commandsOfPass (p : Pass) : List PassWork → List Cmd
  | [] => []
  | w :: ws => if w.pass = p then w.cmds ++ commandsOfPass p ws else commandsOfPass p ws

/-! ## Slices and history buffers -/

/-- The value `numRaysExtent.width * numRaysExtent.height` that every pixel
pass computes in `uint32_t`. -/
def pixelCountOf (rtOutput : RaytracingOutput) : Nat :=
  u32 (rtOutput.m_compositeOutputExtent.width * rtOutput.m_compositeOutputExtent.height)

/-- The slice of the first `bindResourceBuffer` at a binding index. -/
def boundSlice (binding : Nat) : List Cmd → Option DxvkBufferSlice
  | [] => none
  | Cmd.bindResourceBuffer b sl :: cs =>
      if b = binding then some sl else boundSlice binding cs
  | _ :: cs => boundSlice binding cs

/-- The five buffers that hold two generations. -/
inductive HistoryBuffer where
  | fgReservoir
  | fgSample
  | surface
  | causticReservoir
  | causticSample
  deriving DecidableEq, Repr

/-- The data member behind a history buffer. -/
def HistoryBuffer.buffer (k : HistoryBuffer) (s : DxvkReSTIRFG) : Option DxvkBuffer :=
  match k with
  | HistoryBuffer.fgReservoir => s.m_fgReservoirBuffer
  | HistoryBuffer.fgSample => s.m_fgSampleBuffer
  | HistoryBuffer.surface => s.m_surfaceBuffer
  | HistoryBuffer.causticReservoir => s.m_causticReservoirBuffer
  | HistoryBuffer.causticSample => s.m_causticSampleBuffer

/-- The element size in bytes that the pass functions multiply the pixel count
with when they slice a history buffer. -/
def HistoryBuffer.elem (k : HistoryBuffer) : Nat :=
  match k with
  | HistoryBuffer.fgReservoir => 16
  | HistoryBuffer.fgSample => 48
  | HistoryBuffer.surface => 48
  | HistoryBuffer.causticReservoir => 16
  | HistoryBuffer.causticSample => 32

/-- The binding at which `collectPhotons` binds its output slice. -/
def HistoryBuffer.collectBinding (k : HistoryBuffer) : Nat :=
  match k with
  | HistoryBuffer.fgReservoir => RESTIR_FG_COLLECT_BINDING_FG_RESERVOIR_OUTPUT
  | HistoryBuffer.fgSample => RESTIR_FG_COLLECT_BINDING_FG_SAMPLE_OUTPUT
  | HistoryBuffer.surface => RESTIR_FG_COLLECT_BINDING_SURFACE_DATA_OUTPUT
  | HistoryBuffer.causticReservoir => RESTIR_FG_COLLECT_BINDING_CAUSTIC_RESERVOIR_OUTPUT
  | HistoryBuffer.causticSample => RESTIR_FG_COLLECT_BINDING_CAUSTIC_SAMPLE_OUTPUT

/-- The resample pass that reads the previous generation of a history buffer. -/
def HistoryBuffer.resamplePass (k : HistoryBuffer) : Pass :=
  match k with
  | HistoryBuffer.fgReservoir => Pass.resampleFinalGather
  | HistoryBuffer.fgSample => Pass.resampleFinalGather
  | HistoryBuffer.surface => Pass.resampleFinalGather
  | HistoryBuffer.causticReservoir => Pass.resampleCaustics
  | HistoryBuffer.causticSample => Pass.resampleCaustics

/-- The binding at which that resample pass binds the previous generation. -/
def HistoryBuffer.prevBinding (k : HistoryBuffer) : Nat :=
  match k with
  | HistoryBuffer.fgReservoir => RESTIR_FG_RESAMPLE_BINDING_RESERVOIR_PREV
  | HistoryBuffer.fgSample => RESTIR_FG_RESAMPLE_BINDING_SAMPLE_PREV
  | HistoryBuffer.surface => RESTIR_FG_RESAMPLE_BINDING_SURFACE_PREV
  | HistoryBuffer.causticReservoir => RESTIR_FG_CAUSTIC_RESAMPLE_BINDING_RESERVOIR_PREV
  | HistoryBuffer.causticSample => RESTIR_FG_CAUSTIC_RESAMPLE_BINDING_SAMPLE_PREV

/-- The slice that the collector of a dispatch bound as output for a history
buffer. -/
def collectorOutput (k : HistoryBuffer) (w : List PassWork) : Option DxvkBufferSlice :=
  boundSlice k.collectBinding (commandsOfPass Pass.collectPhotons w)

/-- The slice that the resample pass of a dispatch bound as previous
generation of a history buffer; `none` when the pass was not issued. -/
def previousInput (k : HistoryBuffer) (w : List PassWork) : Option DxvkBufferSlice :=
  boundSlice k.prevBinding (commandsOfPass k.resamplePass w)

/-- The commands of the resample pass that reads a history buffer. -/
def HistoryBuffer.resampleCmds (k : HistoryBuffer) (x : Externals)
    (rtOutput : RaytracingOutput) (s : DxvkReSTIRFG) : List Cmd :=
  match k.resamplePass with
  | Pass.resampleCaustics => resampleCaustics x rtOutput s
  | _ => resampleFinalGather x rtOutput s

/-- A history buffer is the one `createDownscaledResource` makes for a pixel
count: it is non-null, its size is `pixelCount * 2 * elem` computed in
`uint32_t`, and that size is not zero (a buffer of zero bytes cannot be
created). -/
def historyBufferCreatedFor (buffer : Option DxvkBuffer) (pixelCount elem : Nat) : Bool :=
  match buffer with
  | none => false
  | some b => decide (b.size = u32 (u32 (pixelCount * 2) * elem)) && decide (0 < b.size)

/-- The binding at which `finalShading` reads the current generation of a
history buffer; the surface buffer is not read by final shading. -/
def HistoryBuffer.finalBinding (k : HistoryBuffer) : Option Nat :=
  match k with
  | HistoryBuffer.fgReservoir => some RESTIR_FG_FINAL_SHADING_BINDING_FG_RESERVOIR
  | HistoryBuffer.fgSample => some RESTIR_FG_FINAL_SHADING_BINDING_FG_SAMPLE
  | HistoryBuffer.surface => none
  | HistoryBuffer.causticReservoir => some RESTIR_FG_FINAL_SHADING_BINDING_CAUSTIC_RESERVOIR
  | HistoryBuffer.causticSample => some RESTIR_FG_FINAL_SHADING_BINDING_CAUSTIC_SAMPLE

/-- The two generation slices of a buffer tile it: the buffer exists with
size `pixelCount * 2 * elem`, generation 0 starts at offset 0, generation 1
starts where generation 0 ends (so they are disjoint), both end inside the
buffer, and their lengths add up to the buffer size. -/
def doubleBufferLayout (buffer : Option DxvkBuffer) (pixelCount elem : Nat) : Bool :=
  match buffer with
  | none => false
  | some b =>
    let g0 := generationSlice buffer 0 pixelCount elem
    let g1 := generationSlice buffer 1 pixelCount elem
    decide (b.size = pixelCount * 2 * elem) &&
    decide (g0.offset = 0) &&
    decide (g0.offset + g0.length ≤ g1.offset) &&
    decide (g0.offset + g0.length ≤ b.size) &&
    decide (g1.offset + g1.length ≤ b.size) &&
    decide (g0.length + g1.length = b.size)

/-! ## Reading a command list -/

/-- The index builds recorded in a command list: build info and build ranges
of every `vkCmdBuildAccelerationStructuresKHR`. -/
def buildCommandsOf (cs : List Cmd) : List (BuildGeometryInfo × List BuildRangeInfo) :=
  cs.filterMap fun c =>
    match c with
    | Cmd.vkCmdBuildAccelerationStructuresKHR info ranges => some (info, ranges)
    | _ => none

/-- The buffer clears recorded in a command list: buffer, offset, length and
value of every `clearBuffer`. -/
def clearCommandsOf (cs : List Cmd) : List (DxvkBuffer × Nat × Nat × Nat) :=
  cs.filterMap fun c =>
    match c with
    | Cmd.clearBuffer b offset length value => some (b, offset, length, value)
    | _ => none

/-- The workgroup counts of every compute `dispatch` in a command list. -/
def dispatchSizesOf (cs : List Cmd) : List (Nat × Nat × Nat) :=
  cs.filterMap fun c =>
    match c with
    | Cmd.dispatch a b d => some (a, b, d)
    | _ => none

/-- Default options with `photonsPerFrame = 10000`, the lower end of the
range of the settings window. -/
def exampleMinPhotonOptions : Options :=
  { Options.defaults with photonsPerFrame := 10000 }

/-- Default options with `photonsPerFrame = 1000000`, the upper end of the
range of the settings window. -/
def exampleMaxPhotonOptions : Options :=
  { Options.defaults with photonsPerFrame := 1000000 }

/-- Default options with `photonsPerFrame = 5`, a value below the range of
the settings window. -/
def exampleTinyPhotonOptions : Options :=
  { Options.defaults with photonsPerFrame := 5 }

/-! ## Enabling -/

/-- The type `IntegrateIndirectMode` of `rtx_options.h`, which is not among
the source files: the enumerator `ReSTIRFG` that the code names, and every
other enumerator by its number. -/
inductive IntegrateIndirectMode where
  | ReSTIRFG
  | other (n : Nat)
  deriving DecidableEq, Repr

/-- The member function `DxvkReSTIRFG::isEnabled`:
`RtxOptions::integrateIndirectMode() == IntegrateIndirectMode::ReSTIRFG`.
The static `rtx.restirFG` options are in scope of the function, which reads
none of them. -/
def isEnabled (integrateIndirectMode : IntegrateIndirectMode) (_o : Options) : Bool :=
  decide (integrateIndirectMode = IntegrateIndirectMode.ReSTIRFG)

/-! ## Shader parameter declarations -/

/-- The kinds of shader parameter used between `BEGIN_PARAMETER()` and
`END_PARAMETER()`. -/
inductive ParameterKind where
  | TEXTURE2D
  | RW_TEXTURE2D
  | STRUCTURED_BUFFER
  | RW_STRUCTURED_BUFFER
  | ACCELERATION_STRUCTURE
  deriving DecidableEq, Repr

/-- The parameters each shader class declares after
`COMMON_RAYTRACING_BINDINGS` (a list declared outside the source files). -/
def Shader.parameters : Shader → List (ParameterKind × Nat)
  | Shader.ReSTIRFGTracePhotonsShader =>
    [ (ParameterKind.RW_STRUCTURED_BUFFER, RESTIR_FG_TRACE_BINDING_PHOTON_BUFFER_OUTPUT),
      (ParameterKind.RW_STRUCTURED_BUFFER, RESTIR_FG_TRACE_BINDING_PHOTON_AABB_GLOBAL_OUTPUT),
      (ParameterKind.RW_STRUCTURED_BUFFER, RESTIR_FG_TRACE_BINDING_PHOTON_AABB_CAUSTIC_OUTPUT),
      (ParameterKind.RW_STRUCTURED_BUFFER, RESTIR_FG_TRACE_BINDING_PHOTON_COUNTER) ]
  | Shader.ReSTIRFGCollectPhotonsShader =>
    [ (ParameterKind.TEXTURE2D, RESTIR_FG_COLLECT_BINDING_SHARED_FLAGS_INPUT),
      (ParameterKind.TEXTURE2D, RESTIR_FG_COLLECT_BINDING_SHARED_SURFACE_INDEX_INPUT),
      (ParameterKind.TEXTURE2D, RESTIR_FG_COLLECT_BINDING_PRIMARY_WORLD_SHADING_NORMAL_INPUT),
      (ParameterKind.TEXTURE2D, RESTIR_FG_COLLECT_BINDING_PRIMARY_PERCEPTUAL_ROUGHNESS_INPUT),
      (ParameterKind.TEXTURE2D, RESTIR_FG_COLLECT_BINDING_PRIMARY_VIEW_DIRECTION_INPUT),
      (ParameterKind.TEXTURE2D, RESTIR_FG_COLLECT_BINDING_PRIMARY_CONE_RADIUS_INPUT),
      (ParameterKind.TEXTURE2D, RESTIR_FG_COLLECT_BINDING_PRIMARY_WORLD_POSITION_INPUT),
      (ParameterKind.TEXTURE2D, RESTIR_FG_COLLECT_BINDING_PRIMARY_POSITION_ERROR_INPUT),
      (ParameterKind.ACCELERATION_STRUCTURE, RESTIR_FG_COLLECT_BINDING_PHOTON_AS),
      (ParameterKind.STRUCTURED_BUFFER, RESTIR_FG_COLLECT_BINDING_PHOTON_DATA),
      (ParameterKind.STRUCTURED_BUFFER, RESTIR_FG_COLLECT_BINDING_PHOTON_AABB_GLOBAL),
      (ParameterKind.STRUCTURED_BUFFER, RESTIR_FG_COLLECT_BINDING_PHOTON_AABB_CAUSTIC),
      (ParameterKind.RW_STRUCTURED_BUFFER, RESTIR_FG_COLLECT_BINDING_FG_RESERVOIR_OUTPUT),
      (ParameterKind.RW_STRUCTURED_BUFFER, RESTIR_FG_COLLECT_BINDING_FG_SAMPLE_OUTPUT),
      (ParameterKind.RW_STRUCTURED_BUFFER, RESTIR_FG_COLLECT_BINDING_CAUSTIC_RESERVOIR_OUTPUT),
      (ParameterKind.RW_STRUCTURED_BUFFER, RESTIR_FG_COLLECT_BINDING_CAUSTIC_SAMPLE_OUTPUT),
      (ParameterKind.RW_STRUCTURED_BUFFER, RESTIR_FG_COLLECT_BINDING_SURFACE_DATA_OUTPUT) ]
  | Shader.ReSTIRFGResampleShader =>
    [ (ParameterKind.TEXTURE2D, RESTIR_FG_RESAMPLE_BINDING_MVEC_INPUT),
      (ParameterKind.TEXTURE2D, RESTIR_FG_RESAMPLE_BINDING_WORLD_POSITION_INPUT),
      (ParameterKind.TEXTURE2D, RESTIR_FG_RESAMPLE_BINDING_WORLD_NORMAL_INPUT),
      (ParameterKind.STRUCTURED_BUFFER, RESTIR_FG_RESAMPLE_BINDING_RESERVOIR_PREV),
      (ParameterKind.STRUCTURED_BUFFER, RESTIR_FG_RESAMPLE_BINDING_SAMPLE_PREV),
      (ParameterKind.STRUCTURED_BUFFER, RESTIR_FG_RESAMPLE_BINDING_SURFACE_PREV),
      (ParameterKind.STRUCTURED_BUFFER, RESTIR_FG_RESAMPLE_BINDING_SURFACE_CURR),
      (ParameterKind.RW_STRUCTURED_BUFFER, RESTIR_FG_RESAMPLE_BINDING_RESERVOIR_CURR),
      (ParameterKind.RW_STRUCTURED_BUFFER, RESTIR_FG_RESAMPLE_BINDING_SAMPLE_CURR) ]
  | Shader.ReSTIRFGCausticResampleShader =>
    [ (ParameterKind.TEXTURE2D, RESTIR_FG_CAUSTIC_RESAMPLE_BINDING_MVEC_INPUT),
      (ParameterKind.TEXTURE2D, RESTIR_FG_CAUSTIC_RESAMPLE_BINDING_WORLD_POSITION_INPUT),
      (ParameterKind.TEXTURE2D, RESTIR_FG_CAUSTIC_RESAMPLE_BINDING_WORLD_NORMAL_INPUT),
      (ParameterKind.STRUCTURED_BUFFER, RESTIR_FG_CAUSTIC_RESAMPLE_BINDING_RESERVOIR_PREV),
      (ParameterKind.STRUCTURED_BUFFER, RESTIR_FG_CAUSTIC_RESAMPLE_BINDING_SAMPLE_PREV),
      (ParameterKind.RW_STRUCTURED_BUFFER, RESTIR_FG_CAUSTIC_RESAMPLE_BINDING_RESERVOIR_CURR),
      (ParameterKind.RW_STRUCTURED_BUFFER, RESTIR_FG_CAUSTIC_RESAMPLE_BINDING_SAMPLE_CURR) ]
  | Shader.ReSTIRFGFinalShadingShader =>
    [ (ParameterKind.TEXTURE2D, RESTIR_FG_FINAL_SHADING_BINDING_WORLD_POSITION_INPUT),
      (ParameterKind.TEXTURE2D, RESTIR_FG_FINAL_SHADING_BINDING_WORLD_NORMAL_INPUT),
      (ParameterKind.TEXTURE2D, RESTIR_FG_FINAL_SHADING_BINDING_PERCEPTUAL_ROUGHNESS_INPUT),
      (ParameterKind.TEXTURE2D, RESTIR_FG_FINAL_SHADING_BINDING_ALBEDO_INPUT),
      (ParameterKind.STRUCTURED_BUFFER, RESTIR_FG_FINAL_SHADING_BINDING_FG_RESERVOIR),
      (ParameterKind.STRUCTURED_BUFFER, RESTIR_FG_FINAL_SHADING_BINDING_FG_SAMPLE),
      (ParameterKind.STRUCTURED_BUFFER, RESTIR_FG_FINAL_SHADING_BINDING_CAUSTIC_RESERVOIR),
      (ParameterKind.STRUCTURED_BUFFER, RESTIR_FG_FINAL_SHADING_BINDING_CAUSTIC_SAMPLE),
      (ParameterKind.RW_TEXTURE2D, RESTIR_FG_FINAL_SHADING_BINDING_OUTPUT),
      (ParameterKind.RW_TEXTURE2D, RESTIR_FG_FINAL_SHADING_BINDING_CAUSTIC_OUTPUT) ]

/-- A parameter kind that the shader can write. -/
def ParameterKind.writable : ParameterKind → Bool
  | ParameterKind.RW_TEXTURE2D => true
  | ParameterKind.RW_STRUCTURED_BUFFER => true
  | _ => false

/-- The bindings of a shader that it can write. -/
def Shader.writableBindings (sh : Shader) : List Nat :=
  (sh.parameters.filter fun p => p.1.writable).map Prod.snd

/-- The views bound with write access in a command list, with their binding. -/
def writtenViewsOf (cs : List Cmd) : List (Nat × RtView) :=
  cs.filterMap fun c =>
    match c with
    | Cmd.bindResourceView b v (some AccessType.Write) => some (b, v)
    | _ => none

/-! ## The final combiner -/

/-- Modelled from the spec: the shader `restir_fg_final_shading` is not among
the source files.  Section 3 of the spec gives a reservoir the fields
`weightSum`, `targetFunctionValue`, `M` and `age`; real numbers are rational
here. -/
structure Reservoir where
  weightSum : Rat
  targetFunctionValue : Rat
  M : Nat
  age : Nat
  deriving DecidableEq, Repr

/-- Modelled from the spec: the shader `restir_fg_final_shading` is not among
the source files.  Section 4.6 of the spec:
`radiance = weightSum / max(M, 1) × f(sample) / targetFunction(sample)`, for
one colour channel. -/
def finalCombinerRadiance {Sample : Type} (f targetFunction : Sample → Rat)
    (r : Reservoir) (sample : Sample) : Rat :=
  r.weightSum / ((max r.M 1 : Nat) : Rat) * f sample / targetFunction sample

/-- Modelled from the spec: the shader `restir_fg_final_shading` is not among
the source files.  What one pixel task of the final combiner sees: the two
current-generation reservoirs with their samples, and the two outputs. -/
structure CombinerPixel (FgSample CausticSample : Type) where
  fgReservoir : Reservoir
  fgSample : FgSample
  causticReservoir : Reservoir
  causticSample : CausticSample
  diffuseIndirect : Rat
  specularIndirect : Rat

/-- Modelled from the spec: the shader `restir_fg_final_shading` is not among
the source files.  Section 4.6 of the spec: the formula is evaluated
separately for the final-gather and the caustic reservoir and written to the
two outputs; nothing else is changed. -/
def finalCombiner {FgSample CausticSample : Type}
    (fFg targetFg : FgSample → Rat) (fCaustic targetCaustic : CausticSample → Rat)
    (p : CombinerPixel FgSample CausticSample) : CombinerPixel FgSample CausticSample :=
  { p with
    diffuseIndirect := finalCombinerRadiance fFg targetFg p.fgReservoir p.fgSample
    specularIndirect :=
      finalCombinerRadiance fCaustic targetCaustic p.causticReservoir p.causticSample }

/-- The binding at which the resample pass of a history buffer binds the
current generation. -/
def HistoryBuffer.currBinding (k : HistoryBuffer) : Nat :=
  match k with
  | HistoryBuffer.fgReservoir => RESTIR_FG_RESAMPLE_BINDING_RESERVOIR_CURR
  | HistoryBuffer.fgSample => RESTIR_FG_RESAMPLE_BINDING_SAMPLE_CURR
  | HistoryBuffer.surface => RESTIR_FG_RESAMPLE_BINDING_SURFACE_CURR
  | HistoryBuffer.causticReservoir => RESTIR_FG_CAUSTIC_RESAMPLE_BINDING_RESERVOIR_CURR
  | HistoryBuffer.causticSample => RESTIR_FG_CAUSTIC_RESAMPLE_BINDING_SAMPLE_CURR

/-! ## The temporal merge -/

/-- Modelled from the spec: the shader `restir_fg_resample` is not among the
source files.  Section 4.4 of the spec, temporal step: the candidate count of
the weighted-reservoir union, `M_curr + M_prev`, capped at
`temporalHistoryLength`. -/
def temporalMergeM (temporalHistoryLength : Nat) (curr prev : Reservoir) : Nat :=
  min (curr.M + prev.M) temporalHistoryLength

/-- Modelled from the spec: the shader `restir_fg_resample` is not among the
source files.  Section 4.4 of the spec, temporal step:
`weightSum' = weightSum_curr + weightSum_prev`, rescaled proportionally, by
`temporalHistoryLength / (M_curr + M_prev)`, when the count is capped. -/
def temporalMergeWeightSum (temporalHistoryLength : Nat) (curr prev : Reservoir) : Rat :=
  if temporalHistoryLength < curr.M + prev.M then
    (curr.weightSum + prev.weightSum) *
      ((temporalHistoryLength : Rat) / ((curr.M + prev.M : Nat) : Rat))
  else
    curr.weightSum + prev.weightSum

/-! # Theorems -/

/-! ## Lemmas on the index build -/

theorem createScratchBuffer_frame (x : Externals) (n : Nat) (s : DxvkReSTIRFG) :
    createScratchBuffer x n s =
      { s with m_photonScratchBuffer := (createScratchBuffer x n s).m_photonScratchBuffer } := by
  unfold createScratchBuffer
  split_ifs <;> rfl

theorem createScratchBuffer_isSome (x : Externals) (n : Nat) (s : DxvkReSTIRFG) :
    (createScratchBuffer x n s).m_photonScratchBuffer.isSome = true := by
  unfold createScratchBuffer
  cases h : s.m_photonScratchBuffer with
  | none => simp
  | some b => split_ifs <;> simp [h]

theorem createOrResizeAccelStructure_frame (x : Externals) (n : Nat) (s : DxvkReSTIRFG) :
    createOrResizeAccelStructure x n s =
      { s with
        m_photonASBuffer := (createOrResizeAccelStructure x n s).m_photonASBuffer
        m_photonAccelStructure :=
          (createOrResizeAccelStructure x n s).m_photonAccelStructure } := by
  unfold createOrResizeAccelStructure
  split_ifs <;> rfl

theorem createOrResizeAccelStructure_buffer_isSome (x : Externals) (n : Nat)
    (s : DxvkReSTIRFG) :
    (createOrResizeAccelStructure x n s).m_photonASBuffer.isSome = true := by
  unfold createOrResizeAccelStructure
  cases h : s.m_photonASBuffer with
  | none => simp
  | some b => split_ifs <;> simp [h]

theorem createOrResizeAccelStructure_accel_isSome (x : Externals) (n : Nat)
    (s : DxvkReSTIRFG)
    (h : (s.m_photonAS.isNone || s.m_photonAccelStructure.isSome) = true) :
    (createOrResizeAccelStructure x n s).m_photonAccelStructure.isSome = true := by
  unfold createOrResizeAccelStructure
  split_ifs with hc
  · rfl
  · simp only [Bool.or_eq_true, not_or] at hc
    simp only [Bool.or_eq_true] at h
    rcases h with h | h
    · exact absurd h hc.1
    · exact h

/-- The index build changes only the acceleration structure, its buffer and
the scratch buffer. -/
theorem afterBuild_frame (x : Externals) (o : Options) (s : DxvkReSTIRFG) :
    afterBuild x o s =
      { s with
        m_photonASBuffer := (afterBuild x o s).m_photonASBuffer
        m_photonAccelStructure := (afterBuild x o s).m_photonAccelStructure
        m_photonScratchBuffer := (afterBuild x o s).m_photonScratchBuffer } := by
  unfold afterBuild
  rw [createScratchBuffer_frame]
  generalize (createScratchBuffer x _ _).m_photonScratchBuffer = sc
  rw [createOrResizeAccelStructure_frame]

theorem afterBuild_frameCount (x : Externals) (o : Options) (s : DxvkReSTIRFG) :
    (afterBuild x o s).m_frameCount = s.m_frameCount := by
  rw [afterBuild_frame]

theorem afterBuild_canResample (x : Externals) (o : Options) (s : DxvkReSTIRFG) :
    (afterBuild x o s).m_canResample = s.m_canResample := by
  rw [afterBuild_frame]

theorem afterDispatch_frameCount (x : Externals) (o : Options) (s : DxvkReSTIRFG) :
    (afterDispatch x o s).m_frameCount = u32 (s.m_frameCount + 1) := by
  simp [afterDispatch, afterBuild_frameCount]

/-- When the index build returns, the object it returns is `afterBuild`. -/
theorem build_eq_some (x : Externals) (o : Options) (s : DxvkReSTIRFG)
    (r : DxvkReSTIRFG × List Cmd)
    (h : buildPhotonAccelerationStructure x o s = some r) : r.1 = afterBuild x o s := by
  simp only [buildPhotonAccelerationStructure, Option.bind_eq_bind, Option.bind_eq_some,
    Option.pure_def, Option.some.injEq] at h
  obtain ⟨a0, _, a1, _, d, _, sc, _, b, _, rfl⟩ := h
  rfl

/-- With its resources present the index build returns. -/
theorem build_of_ready (x : Externals) (o : Options) (s : DxvkReSTIRFG)
    (h : s.ready = true) :
    ∃ cmds, buildPhotonAccelerationStructure x o s = some (afterBuild x o s, cmds) := by
  simp only [DxvkReSTIRFG.ready, Bool.and_eq_true] at h
  obtain ⟨⟨⟨⟨_, h0⟩, h1⟩, _⟩, ha⟩ := h
  obtain ⟨a0, h0⟩ := Option.isSome_iff_exists.mp h0
  obtain ⟨a1, h1⟩ := Option.isSome_iff_exists.mp h1
  obtain ⟨d, hd⟩ := Option.isSome_iff_exists.mp
    (createOrResizeAccelStructure_accel_isSome x
      (x.accelerationStructureSize [o.photonsPerFrame, o.photonsPerFrame]) s ha)
  obtain ⟨sc, hsc⟩ := Option.isSome_iff_exists.mp
    (createScratchBuffer_isSome x
      (u64 (x.buildScratchSize [o.photonsPerFrame, o.photonsPerFrame] + x.scratchAlignment))
      (createOrResizeAccelStructure x
        (x.accelerationStructureSize [o.photonsPerFrame, o.photonsPerFrame]) s))
  obtain ⟨b, hb⟩ := Option.isSome_iff_exists.mp
    (createOrResizeAccelStructure_buffer_isSome x
      (x.accelerationStructureSize [o.photonsPerFrame, o.photonsPerFrame]) s)
  have hb2 : (afterBuild x o s).m_photonASBuffer = some b := by
    unfold afterBuild
    rw [createScratchBuffer_frame]
    exact hb
  unfold afterBuild at hb2
  simp [buildPhotonAccelerationStructure, afterBuild, h0, h1, hd, hsc, hb2]

theorem tracePhotons_of_ready (o : Options) (s : DxvkReSTIRFG) (h : s.ready = true) :
    ∃ cmds, tracePhotons o s = some cmds := by
  simp only [DxvkReSTIRFG.ready, Bool.and_eq_true] at h
  obtain ⟨⟨⟨⟨hp, h0⟩, h1⟩, hc⟩, _⟩ := h
  obtain ⟨p, hp⟩ := Option.isSome_iff_exists.mp hp
  obtain ⟨a0, h0⟩ := Option.isSome_iff_exists.mp h0
  obtain ⟨a1, h1⟩ := Option.isSome_iff_exists.mp h1
  obtain ⟨c, hc⟩ := Option.isSome_iff_exists.mp hc
  simp [tracePhotons, hp, h0, h1, hc]

theorem collectPhotons_afterBuild_of_ready (x : Externals) (o : Options)
    (rtOutput : RaytracingOutput) (s : DxvkReSTIRFG) (h : s.ready = true) :
    ∃ cmds, collectPhotons x rtOutput (afterBuild x o s) = some cmds := by
  simp only [DxvkReSTIRFG.ready, Bool.and_eq_true] at h
  obtain ⟨⟨⟨⟨hp, h0⟩, h1⟩, _⟩, _⟩ := h
  obtain ⟨p, hp⟩ := Option.isSome_iff_exists.mp hp
  obtain ⟨a0, h0⟩ := Option.isSome_iff_exists.mp h0
  obtain ⟨a1, h1⟩ := Option.isSome_iff_exists.mp h1
  have e := afterBuild_frame x o s
  have hp2 : (afterBuild x o s).m_photonBuffer = some p := by rw [e]; exact hp
  have h02 : (afterBuild x o s).m_photonAABBBuffer_0 = some a0 := by rw [e]; exact h0
  have h12 : (afterBuild x o s).m_photonAABBBuffer_1 = some a1 := by rw [e]; exact h1
  simp [collectPhotons, hp2, h02, h12]

/-! ## Lemmas on `dispatch` -/

theorem dispatch_inactive (x : Externals) (o : Options) (rtOutput : RaytracingOutput)
    (s : DxvkReSTIRFG) : dispatch x o rtOutput false s = some (s, []) := by
  simp [dispatch]

/-- When an active dispatch returns, the object is `afterDispatch` and the
passes are `passesFor`. -/
theorem dispatch_active_eq_some (x : Externals) (o : Options) (rtOutput : RaytracingOutput)
    (s : DxvkReSTIRFG) (r : DxvkReSTIRFG × List PassWork)
    (h : dispatch x o rtOutput true s = some r) :
    r.1 = afterDispatch x o s ∧ r.2.map PassWork.pass = passesFor o s := by
  simp only [dispatch, Bool.not_true, Bool.false_eq_true, if_false, Option.bind_eq_bind,
    Option.bind_eq_some, Option.pure_def, Option.some.injEq] at h
  obtain ⟨t, _, b, hb, c, _, rfl⟩ := h
  have e := build_eq_some x o s b hb
  have hc : b.1.m_canResample = s.m_canResample := by rw [e, afterBuild_canResample]
  constructor
  · simp only [afterDispatch, e]
  · simp only [passesFor, hc]
    split_ifs <;> rfl

/-- With its resources present an active dispatch returns. -/
theorem dispatch_active_of_ready (x : Externals) (o : Options) (rtOutput : RaytracingOutput)
    (s : DxvkReSTIRFG) (h : s.ready = true) :
    ∃ r, dispatch x o rtOutput true s = some r := by
  obtain ⟨t, ht⟩ := tracePhotons_of_ready o s h
  obtain ⟨b, hb⟩ := build_of_ready x o s h
  obtain ⟨c, hc⟩ := collectPhotons_afterBuild_of_ready x o rtOutput s h
  simp [dispatch, ht, hb, hc]

/-- The passes of an active dispatch on an object whose resources are present. -/
theorem passesOf_dispatch_of_ready (x : Externals) (o : Options)
    (rtOutput : RaytracingOutput) (s : DxvkReSTIRFG) (h : s.ready = true) :
    passesOf (dispatch x o rtOutput true s) = some (passesFor o s) := by
  obtain ⟨r, hr⟩ := dispatch_active_of_ready x o rtOutput s h
  rw [hr]
  simp [passesOf, (dispatch_active_eq_some x o rtOutput s r hr).2]

/-! ## Lemmas on operation sequences -/

theorem createDownscaledResource_frameCount (x : Externals) (o : Options) (e : VkExtent3D)
    (s : DxvkReSTIRFG) : (createDownscaledResource x o e s).m_frameCount = s.m_frameCount :=
  rfl

theorem releaseDownscaledResource_frameCount (s : DxvkReSTIRFG) :
    (releaseDownscaledResource s).m_frameCount = s.m_frameCount :=
  rfl

/-- One operation moves the counter by one when it is an active dispatch and
leaves it alone otherwise. -/
theorem step_frameCount (x : Externals) (w w' : World) (op : Op)
    (h : step x w op = some w') :
    w'.obj.m_frameCount = u32 (w.obj.m_frameCount + activeDispatches [op]) ∨
    (activeDispatches [op] = 0 ∧ w'.obj.m_frameCount = w.obj.m_frameCount) := by
  cases op with
  | dispatch rtOutput isActive =>
    cases isActive with
    | false =>
      right
      simp only [step, dispatch_inactive, Option.map_some', Option.some.injEq] at h
      subst h
      exact ⟨rfl, rfl⟩
    | true =>
      left
      simp only [step, Option.map_eq_some'] at h
      obtain ⟨r, hr, rfl⟩ := h
      have e := (dispatch_active_eq_some x w.options rtOutput w.obj r hr).1
      simp only [e, afterDispatch_frameCount, activeDispatches]
  | createDownscaledResource e =>
    right
    simp only [step, Option.some.injEq] at h
    subst h
    exact ⟨rfl, rfl⟩
  | releaseDownscaledResource =>
    right
    simp only [step, Option.some.injEq] at h
    subst h
    exact ⟨rfl, rfl⟩
  | setToNRDPreset =>
    right
    simp only [step, Option.some.injEq] at h
    subst h
    exact ⟨rfl, rfl⟩
  | setToRayReconstructionPreset =>
    right
    simp only [step, Option.some.injEq] at h
    subst h
    exact ⟨rfl, rfl⟩
  | setOptions o =>
    right
    simp only [step, Option.some.injEq] at h
    subst h
    exact ⟨rfl, rfl⟩

theorem activeDispatches_cons (op : Op) (ops : List Op) :
    activeDispatches (op :: ops) = activeDispatches [op] + activeDispatches ops := by
  cases op with
  | dispatch rtOutput isActive => cases isActive <;> simp [activeDispatches, Nat.add_comm]
  | _ => simp [activeDispatches]

/-- After a sequence of operations the counter has advanced, modulo `2 ^ 32`,
by the number of active dispatches in it. -/
theorem run_frameCount (x : Externals) (ops : List Op) (w w' : World)
    (hw : w.obj.m_frameCount < 2 ^ 32) (h : run x ops w = some w') :
    w'.obj.m_frameCount = u32 (w.obj.m_frameCount + activeDispatches ops) := by
  induction ops generalizing w with
  | nil =>
    simp only [run, Option.some.injEq] at h
    subst h
    simp only [activeDispatches, u32, Nat.add_zero]
    exact (Nat.mod_eq_of_lt hw).symm
  | cons op ops ih =>
    simp only [run, Option.bind_eq_some] at h
    obtain ⟨w1, h1, h2⟩ := h
    rw [activeDispatches_cons]
    rcases step_frameCount x w w1 op h1 with e | ⟨e0, e⟩
    · have hlt : w1.obj.m_frameCount < 2 ^ 32 := by
        rw [e]
        exact Nat.mod_lt _ (by norm_num)
      rw [ih w1 hlt h2, e]
      simp only [u32]
      omega
    · have hlt : w1.obj.m_frameCount < 2 ^ 32 := by rw [e]; exact hw
      rw [ih w1 hlt h2, e, e0, Nat.zero_add]

/-! ## Claims -/

/-- C1. Cold start: on an object whose resources are created and whose
`m_canResample` is false (the state of a freshly constructed object, where
`m_frameCount = 0`), an active dispatch returns and calls exactly
`tracePhotons`, `buildPhotonAccelerationStructure`, `collectPhotons` and
`finalShading`: neither resample pass is issued, for every option value. -/
theorem cold_start_skips_both_resample_passes (x : Externals) (o : Options)
    (rtOutput : RaytracingOutput) (s : DxvkReSTIRFG)
    (hr : s.ready = true) (hc : s.m_canResample = false) :
    passesOf (dispatch x o rtOutput true s) =
      some [Pass.tracePhotons, Pass.buildPhotonAccelerationStructure,
        Pass.collectPhotons, Pass.finalShading] := by
  rw [passesOf_dispatch_of_ready x o rtOutput s hr]
  simp [passesFor, hc]

/-- Witness of C1: a freshly constructed object after resource creation, with
`causticMode = Reservoir` and `resamplingMode = SpatioTemporal`. -/
theorem cold_start_skips_both_resample_passes_witness :
    DxvkReSTIRFG.constructed.m_frameCount = 0 ∧
    DxvkReSTIRFG.constructed.m_canResample = false ∧
    passesOf (dispatch exampleExternals exampleReservoirOptions exampleOutput true
        exampleCreated) =
      some [Pass.tracePhotons, Pass.buildPhotonAccelerationStructure,
        Pass.collectPhotons, Pass.finalShading] :=
  ⟨rfl, rfl,
    cold_start_skips_both_resample_passes exampleExternals exampleReservoirOptions
      exampleOutput exampleCreated (by decide) (by decide)⟩

/-- C2 on the code, at a concrete run: create, one active dispatch, release,
create again, then an active dispatch with `causticMode = Reservoir`.  The
last dispatch issues both resample passes, because neither
`releaseDownscaledResource` nor `createDownscaledResource` clears
`m_canResample`. -/
theorem reenable_dispatch_issues_resample_passes :
    ((run exampleExternals
        [Op.createDownscaledResource exampleExtent,
         Op.dispatch exampleOutput true,
         Op.releaseDownscaledResource,
         Op.createDownscaledResource exampleExtent]
        ⟨exampleReservoirOptions, DxvkReSTIRFG.constructed⟩).bind fun w =>
      passesOf (dispatch exampleExternals w.options exampleOutput true w.obj)) =
      some [Pass.tracePhotons, Pass.buildPhotonAccelerationStructure,
        Pass.collectPhotons, Pass.resampleFinalGather, Pass.resampleCaustics,
        Pass.finalShading] := by
  decide

/-- C3. Frame-parity counter: the constructed object has `m_frameCount = 0`;
after any sequence of dispatches, resource creations and releases, presets and
option edits that runs to its end, `m_frameCount` is the number of active
dispatches in the sequence modulo `2 ^ 32`; and from the state reached, one
more operation adds one (modulo `2 ^ 32`) when it is an active dispatch and
nothing otherwise. -/
theorem frameCount_counts_active_dispatches (x : Externals) (ops : List Op) (o : Options)
    (w : World) (h : run x ops ⟨o, DxvkReSTIRFG.constructed⟩ = some w) :
    DxvkReSTIRFG.constructed.m_frameCount = 0 ∧
    w.obj.m_frameCount = activeDispatches ops % 2 ^ 32 ∧
    ∀ op w1, step x w op = some w1 →
      w1.obj.m_frameCount = (w.obj.m_frameCount + activeDispatches [op]) % 2 ^ 32 := by
  have h0 : (World.mk o DxvkReSTIRFG.constructed).obj.m_frameCount < 2 ^ 32 := by
    show (0 : Nat) < 2 ^ 32
    norm_num
  have e := run_frameCount x ops ⟨o, DxvkReSTIRFG.constructed⟩ w h0 h
  have e1 : w.obj.m_frameCount = activeDispatches ops % 2 ^ 32 := by
    simpa [u32, DxvkReSTIRFG.constructed] using e
  refine ⟨rfl, e1, ?_⟩
  intro op w1 h1
  have hlt : w.obj.m_frameCount < 2 ^ 32 := by
    rw [e1]
    exact Nat.mod_lt _ (by norm_num)
  rcases step_frameCount x w w1 op h1 with e2 | ⟨e0, e2⟩
  · exact e2
  · rw [e2, e0, Nat.add_zero]
    exact (Nat.mod_eq_of_lt hlt).symm

/-- Witness of C3: three active dispatches among an inactive one, a preset, a
release and two creations. -/
theorem frameCount_counts_active_dispatches_witness :
    ((run exampleExternals
        [Op.createDownscaledResource exampleExtent,
         Op.dispatch exampleOutput true,
         Op.dispatch exampleOutput false,
         Op.setToNRDPreset,
         Op.dispatch exampleOutput true,
         Op.releaseDownscaledResource,
         Op.createDownscaledResource exampleExtent,
         Op.setToRayReconstructionPreset,
         Op.dispatch exampleOutput true]
        ⟨Options.defaults, DxvkReSTIRFG.constructed⟩).get (by decide)).obj.m_frameCount
      = 3 :=
  (frameCount_counts_active_dispatches exampleExternals _ Options.defaults _
    (Option.some_get _).symm).2.1

/-- C4. Generation selection: for every frame count `c` (in particular every
32-bit value), `currIdx c` and `prevIdx c` are 0 or 1 and differ, and the
previous index at the next frame count (wrapping at `2 ^ 32`) is the current
index at `c`. -/
theorem generation_indices_alternate (c : Nat) :
    currIdx c < 2 ∧ prevIdx c < 2 ∧ currIdx c ≠ prevIdx c ∧
    prevIdx (u32 (c + 1)) = currIdx c := by
  unfold currIdx prevIdx u32
  omega

/-- C4 at the wrap, `c = 2 ^ 32 - 1`, where the next frame count is 0. -/
theorem generation_indices_alternate_witness :
    currIdx 4294967295 < 2 ∧ prevIdx 4294967295 < 2 ∧
    currIdx 4294967295 ≠ prevIdx 4294967295 ∧
    prevIdx (u32 (4294967295 + 1)) = currIdx 4294967295 ∧
    u32 (4294967295 + 1) = 0 :=
  ⟨(generation_indices_alternate 4294967295).1,
    (generation_indices_alternate 4294967295).2.1,
    (generation_indices_alternate 4294967295).2.2.1,
    (generation_indices_alternate 4294967295).2.2.2, by decide⟩

/-- C5. Stage order: on an object whose resources are present, for every
configuration, an active dispatch returns, its passes are a subsequence of
trace, index build, collect, FG resample, caustic resample, final shading, and
it calls each of the four unconditional passes exactly once. -/
theorem dispatch_passes_in_pipeline_order (x : Externals) (o : Options)
    (rtOutput : RaytracingOutput) (s : DxvkReSTIRFG) (hr : s.ready = true) :
    ∃ ps, passesOf (dispatch x o rtOutput true s) = some ps ∧
      ps.Sublist pipelineOrder ∧
      ps.count Pass.tracePhotons = 1 ∧
      ps.count Pass.buildPhotonAccelerationStructure = 1 ∧
      ps.count Pass.collectPhotons = 1 ∧
      ps.count Pass.finalShading = 1 := by
  refine ⟨passesFor o s, passesOf_dispatch_of_ready x o rtOutput s hr, ?_⟩
  unfold passesFor pipelineOrder
  split_ifs <;> decide

/-- Witness of C5: the second dispatch of a run, where both resample passes
are issued. -/
theorem dispatch_passes_in_pipeline_order_witness :
    ∃ ps, passesOf (dispatch exampleExternals exampleReservoirOptions exampleOutput true
        exampleWarm) = some ps ∧
      ps.Sublist pipelineOrder ∧
      ps.count Pass.tracePhotons = 1 ∧
      ps.count Pass.buildPhotonAccelerationStructure = 1 ∧
      ps.count Pass.collectPhotons = 1 ∧
      ps.count Pass.finalShading = 1 :=
  dispatch_passes_in_pipeline_order exampleExternals exampleReservoirOptions exampleOutput
    exampleWarm (by decide)

/-- C6 on the code, at a concrete state: with `resamplingMode = Spatial` and
valid previous-frame data (`m_canResample = true`, the object after one active
dispatch), an active dispatch does not issue `resampleFinalGather`, so no
pass of the frame resamples the final-gather reservoirs: the passes are those
of a cold-start frame. -/
theorem spatial_mode_issues_no_resampleFinalGather :
    exampleWarm.m_canResample = true ∧
    exampleSpatialOptions.resamplingMode = ReSTIRFGResamplingMode.Spatial ∧
    passesOf (dispatch exampleExternals exampleSpatialOptions exampleOutput true
        exampleWarm) =
      some [Pass.tracePhotons, Pass.buildPhotonAccelerationStructure,
        Pass.collectPhotons, Pass.finalShading] ∧
    (¬ ∃ ps, passesOf (dispatch exampleExternals exampleSpatialOptions exampleOutput true
        exampleWarm) = some ps ∧ Pass.resampleFinalGather ∈ ps) ∧
    exampleCreated.m_canResample = false ∧
    passesOf (dispatch exampleExternals exampleSpatialOptions exampleOutput true
        exampleWarm) =
      passesOf (dispatch exampleExternals exampleSpatialOptions exampleOutput true
        exampleCreated) := by
  refine ⟨by decide, by decide, by decide, ?_, by decide, by decide⟩
  rintro ⟨ps, h, hm⟩
  have e : passesOf (dispatch exampleExternals exampleSpatialOptions exampleOutput true
      exampleWarm) = some [Pass.tracePhotons, Pass.buildPhotonAccelerationStructure,
        Pass.collectPhotons, Pass.finalShading] := by decide
  rw [e, Option.some.injEq] at h
  subst h
  revert hm
  decide

/-- The guard of step 4 of `dispatch`, for every object whose resources are
present: `resampleFinalGather` is issued exactly when `m_canResample` holds
and `resamplingMode` is not `Spatial`; with `resamplingMode = Spatial` it is
never issued. -/
theorem resampleFinalGather_issued_iff (x : Externals) (o : Options)
    (rtOutput : RaytracingOutput) (s : DxvkReSTIRFG) (hr : s.ready = true) :
    ∃ ps, passesOf (dispatch x o rtOutput true s) = some ps ∧
      (o.resamplingMode = ReSTIRFGResamplingMode.Spatial →
        Pass.resampleFinalGather ∉ ps) ∧
      (Pass.resampleFinalGather ∈ ps ↔
        (s.m_canResample = true ∧
          o.resamplingMode ≠ ReSTIRFGResamplingMode.Spatial)) := by
  refine ⟨passesFor o s, passesOf_dispatch_of_ready x o rtOutput s hr, ?_, ?_⟩
  · intro hm
    unfold passesFor
    split_ifs <;> simp_all
  · unfold passesFor
    split_ifs <;> simp_all

/-- C7. With `resamplingMode` `Temporal` or `SpatioTemporal` and
`m_canResample = true`, an active dispatch returns and issues
`resampleFinalGather` exactly once, as its fourth pass, after `collectPhotons`
and before `finalShading`, for every `causticMode`. -/
theorem temporal_modes_issue_resampleFinalGather_once (x : Externals) (o : Options)
    (rtOutput : RaytracingOutput) (s : DxvkReSTIRFG) (hr : s.ready = true)
    (hc : s.m_canResample = true)
    (hm : o.resamplingMode = ReSTIRFGResamplingMode.Temporal ∨
      o.resamplingMode = ReSTIRFGResamplingMode.SpatioTemporal) :
    ∃ ps, passesOf (dispatch x o rtOutput true s) = some ps ∧
      ps.count Pass.resampleFinalGather = 1 ∧
      ps.indexOf Pass.resampleFinalGather = 3 ∧
      ps.indexOf Pass.collectPhotons < ps.indexOf Pass.resampleFinalGather ∧
      ps.indexOf Pass.resampleFinalGather < ps.indexOf Pass.finalShading := by
  refine ⟨passesFor o s, passesOf_dispatch_of_ready x o rtOutput s hr, ?_⟩
  have hne : o.resamplingMode ≠ ReSTIRFGResamplingMode.Spatial := by
    rcases hm with h | h <;> simp [h]
  unfold passesFor
  simp only [hc, hne, Bool.true_and, ne_eq, not_false_eq_true, decide_True, if_true]
  split_ifs <;> decide

/-- Witness of C7 with the default options (`SpatioTemporal`). -/
theorem temporal_modes_issue_resampleFinalGather_once_witness :
    ∃ ps, passesOf (dispatch exampleExternals Options.defaults exampleOutput true
        exampleWarm) = some ps ∧
      ps.count Pass.resampleFinalGather = 1 ∧
      ps.indexOf Pass.resampleFinalGather = 3 ∧
      ps.indexOf Pass.collectPhotons < ps.indexOf Pass.resampleFinalGather ∧
      ps.indexOf Pass.resampleFinalGather < ps.indexOf Pass.finalShading :=
  temporal_modes_issue_resampleFinalGather_once exampleExternals Options.defaults
    exampleOutput exampleWarm (by decide) (by decide) (Or.inr (by decide))

/-- C8 on the code, at a concrete state: with the default
`causticMode = Temporal` and `m_canResample = true`, an active dispatch does
not issue `resampleCaustics`, and no command of the dispatch binds the
previous generation of the caustic reservoir or sample buffer. -/
theorem caustic_temporal_mode_issues_no_caustic_resample :
    Options.defaults.causticMode = ReSTIRFGCausticMode.Temporal ∧
    exampleWarm.m_canResample = true ∧
    passesOf (dispatch exampleExternals Options.defaults exampleOutput true exampleWarm) =
      some [Pass.tracePhotons, Pass.buildPhotonAccelerationStructure,
        Pass.collectPhotons, Pass.resampleFinalGather, Pass.finalShading] ∧
    ((dispatch exampleExternals Options.defaults exampleOutput true exampleWarm).map
      fun r => (commandsOf r.2).any fun c =>
        match c with
        | Cmd.bindResourceBuffer _ sl =>
            sl == generationSlice exampleWarm.m_causticReservoirBuffer
                (prevIdx exampleWarm.m_frameCount) (1920 * 1080) 16 ||
            sl == generationSlice exampleWarm.m_causticSampleBuffer
                (prevIdx exampleWarm.m_frameCount) (1920 * 1080) 32
        | _ => false) = some false := by
  refine ⟨by decide, by decide, by decide, by decide⟩

/-- C9. An active dispatch on an object whose resources are present returns;
with `causticMode` `None` or `Direct` it never issues `resampleCaustics`, and
with `causticMode = Reservoir` and `m_canResample = true` it issues
`resampleCaustics` exactly once, after `collectPhotons` and before
`finalShading`. -/
theorem caustic_resample_only_in_reservoir_mode (x : Externals) (o : Options)
    (rtOutput : RaytracingOutput) (s : DxvkReSTIRFG) (hr : s.ready = true) :
    ∃ ps, passesOf (dispatch x o rtOutput true s) = some ps ∧
      ((o.causticMode = ReSTIRFGCausticMode.None ∨
          o.causticMode = ReSTIRFGCausticMode.Direct) →
        Pass.resampleCaustics ∉ ps) ∧
      (o.causticMode = ReSTIRFGCausticMode.Reservoir → s.m_canResample = true →
        ps.count Pass.resampleCaustics = 1 ∧
        ps.indexOf Pass.collectPhotons < ps.indexOf Pass.resampleCaustics ∧
        ps.indexOf Pass.resampleCaustics < ps.indexOf Pass.finalShading) := by
  refine ⟨passesFor o s, passesOf_dispatch_of_ready x o rtOutput s hr, ?_, ?_⟩
  · intro hm
    have hne : o.causticMode ≠ ReSTIRFGCausticMode.Reservoir := by
      rcases hm with h | h <;> simp [h]
    unfold passesFor
    split_ifs <;> simp_all
  · intro hm hc
    unfold passesFor
    simp only [hc, hm, Bool.true_and, decide_True, if_true]
    split_ifs <;> decide

/-- Witness of C9 with `causticMode = Reservoir` after one active dispatch. -/
theorem caustic_resample_only_in_reservoir_mode_witness :
    ∃ ps, passesOf (dispatch exampleExternals exampleReservoirOptions exampleOutput true
        exampleWarm) = some ps ∧
      ((exampleReservoirOptions.causticMode = ReSTIRFGCausticMode.None ∨
          exampleReservoirOptions.causticMode = ReSTIRFGCausticMode.Direct) →
        Pass.resampleCaustics ∉ ps) ∧
      (exampleReservoirOptions.causticMode = ReSTIRFGCausticMode.Reservoir →
        exampleWarm.m_canResample = true →
        ps.count Pass.resampleCaustics = 1 ∧
        ps.indexOf Pass.collectPhotons < ps.indexOf Pass.resampleCaustics ∧
        ps.indexOf Pass.resampleCaustics < ps.indexOf Pass.finalShading) :=
  caustic_resample_only_in_reservoir_mode exampleExternals exampleReservoirOptions
    exampleOutput exampleWarm (by decide)

/-- C10 on the code: `causticMode` is read by no pass
function, so for every input a dispatch with `causticMode = None` returns the
same object and the same work as one with `causticMode = Direct`; and on the
created object with `causticMode = None` the index build has the caustic AABB
buffer as its second geometry with the full primitive count, the tracer binds
the caustic AABB output, and the collector binds the caustic reservoir and
sample outputs. -/
theorem caustic_mode_none_issues_caustic_work :
    (∀ (x : Externals) (o : Options) (rtOutput : RaytracingOutput) (isActive : Bool)
        (s : DxvkReSTIRFG),
      dispatch x { o with causticMode := ReSTIRFGCausticMode.None } rtOutput isActive s =
        dispatch x { o with causticMode := ReSTIRFGCausticMode.Direct } rtOutput isActive s) ∧
    ((dispatch exampleExternals exampleNoCausticOptions exampleOutput true exampleCreated).map
      fun r =>
        ((commandsOfPass Pass.buildPhotonAccelerationStructure r.2).any fun c =>
          match c with
          | Cmd.vkCmdBuildAccelerationStructuresKHR info ranges =>
              info.geometries ==
                [⟨24, exampleExternals.bufferAddress "ReSTIR-FG Global Photon AABB"⟩,
                 ⟨24, exampleExternals.bufferAddress "ReSTIR-FG Caustic Photon AABB"⟩] &&
              ranges == [⟨100000, 0, 0, 0⟩, ⟨100000, 0, 0, 0⟩]
          | _ => false) &&
        (commandsOfPass Pass.tracePhotons r.2).any (fun c =>
          match c with
          | Cmd.bindResourceBuffer b sl =>
              b == RESTIR_FG_TRACE_BINDING_PHOTON_AABB_CAUSTIC_OUTPUT &&
              sl.buffer == exampleCreated.m_photonAABBBuffer_1
          | _ => false) &&
        (commandsOfPass Pass.collectPhotons r.2).contains
          (Cmd.bindResourceBuffer RESTIR_FG_COLLECT_BINDING_CAUSTIC_RESERVOIR_OUTPUT
            (generationSlice exampleCreated.m_causticReservoirBuffer 0 (1920 * 1080) 16)) &&
        (commandsOfPass Pass.collectPhotons r.2).contains
          (Cmd.bindResourceBuffer RESTIR_FG_COLLECT_BINDING_CAUSTIC_SAMPLE_OUTPUT
            (generationSlice exampleCreated.m_causticSampleBuffer 0 (1920 * 1080) 32)))
      = some true := by
  refine ⟨?_, by decide⟩
  intro x o rtOutput isActive s
  cases isActive <;> rfl

/-! ## Lemmas on the work of a dispatch -/

/-- The whole result of an active dispatch that returns. -/
theorem dispatch_active_work (x : Externals) (o : Options) (rtOutput : RaytracingOutput)
    (s : DxvkReSTIRFG) (r : DxvkReSTIRFG × List PassWork)
    (h : dispatch x o rtOutput true s = some r) :
    ∃ t b c, tracePhotons o s = some t ∧
      buildPhotonAccelerationStructure x o s = some (afterBuild x o s, b) ∧
      collectPhotons x rtOutput (afterBuild x o s) = some c ∧
      r = (afterDispatch x o s,
        [⟨Pass.tracePhotons, t⟩, ⟨Pass.buildPhotonAccelerationStructure, b⟩,
         ⟨Pass.collectPhotons, c⟩]
        ++ (if s.m_canResample &&
              decide (o.resamplingMode ≠ ReSTIRFGResamplingMode.Spatial) then
            [⟨Pass.resampleFinalGather, resampleFinalGather x rtOutput (afterBuild x o s)⟩]
          else [])
        ++ (if s.m_canResample &&
              decide (o.causticMode = ReSTIRFGCausticMode.Reservoir) then
            [⟨Pass.resampleCaustics, resampleCaustics x rtOutput (afterBuild x o s)⟩]
          else [])
        ++ [⟨Pass.finalShading, finalShading x rtOutput (afterBuild x o s)⟩]) := by
  simp only [dispatch, Bool.not_true, Bool.false_eq_true, if_false, Option.bind_eq_bind,
    Option.bind_eq_some, Option.pure_def, Option.some.injEq] at h
  obtain ⟨t, ht, b, hb, c, hc, rfl⟩ := h
  have e := build_eq_some x o s b hb
  obtain ⟨b1, b2⟩ := b
  simp only at e
  subst e
  refine ⟨t, b2, c, ht, hb, hc, ?_⟩
  simp only [afterDispatch, afterBuild_canResample]

theorem afterDispatch_ready (x : Externals) (o : Options) (s : DxvkReSTIRFG)
    (h : s.ready = true) : (afterDispatch x o s).ready = true := by
  have ha : (afterBuild x o s).m_photonAccelStructure.isSome = true ∨
      (afterBuild x o s).m_photonAS.isNone = true := by
    simp only [DxvkReSTIRFG.ready, Bool.and_eq_true, Bool.or_eq_true] at h
    rcases h.2 with h1 | h1
    · right
      rw [afterBuild_frame]
      exact h1
    · left
      unfold afterBuild
      rw [createScratchBuffer_frame]
      exact createOrResizeAccelStructure_accel_isSome x _ s (by simp [h1])
  have e := afterBuild_frame x o s
  simp only [DxvkReSTIRFG.ready, Bool.and_eq_true, Bool.or_eq_true] at h ⊢
  obtain ⟨⟨⟨⟨hp, h0⟩, h1⟩, hc⟩, _⟩ := h
  refine ⟨⟨⟨⟨?_, ?_⟩, ?_⟩, ?_⟩, ?_⟩
  · show (afterBuild x o s).m_photonBuffer.isSome = true
    rw [e]; exact hp
  · show (afterBuild x o s).m_photonAABBBuffer_0.isSome = true
    rw [e]; exact h0
  · show (afterBuild x o s).m_photonAABBBuffer_1.isSome = true
    rw [e]; exact h1
  · show (afterBuild x o s).m_photonCounterBuffer.isSome = true
    rw [e]; exact hc
  · exact ha.symm

theorem afterBuild_historyBuffer (k : HistoryBuffer) (x : Externals) (o : Options)
    (s : DxvkReSTIRFG) : k.buffer (afterBuild x o s) = k.buffer s := by
  rw [afterBuild_frame]
  cases k <;> rfl

theorem afterDispatch_historyBuffer (k : HistoryBuffer) (x : Externals) (o : Options)
    (s : DxvkReSTIRFG) : k.buffer (afterDispatch x o s) = k.buffer s := by
  rw [← afterBuild_historyBuffer k x o s]
  cases k <;> rfl

/-- The output slices of the collector. -/
theorem collectPhotons_boundSlice (k : HistoryBuffer) (x : Externals)
    (rtOutput : RaytracingOutput) (s : DxvkReSTIRFG) (c : List Cmd)
    (h : collectPhotons x rtOutput s = some c) :
    boundSlice k.collectBinding c =
      some (generationSlice (k.buffer s) (currIdx s.m_frameCount) (pixelCountOf rtOutput)
        k.elem) := by
  simp only [collectPhotons, Option.bind_eq_bind, Option.bind_eq_some, Option.pure_def,
    Option.some.injEq] at h
  obtain ⟨p, _, a0, _, a1, _, rfl⟩ := h
  cases k <;> rfl

/-- The previous-generation slices of the resample passes. -/
theorem resampleCmds_boundSlice_prev (k : HistoryBuffer) (x : Externals)
    (rtOutput : RaytracingOutput) (s : DxvkReSTIRFG) :
    boundSlice k.prevBinding (k.resampleCmds x rtOutput s) =
      some (generationSlice (k.buffer s) (prevIdx s.m_frameCount) (pixelCountOf rtOutput)
        k.elem) := by
  cases k <;> rfl

/-- The commands of the collector in the work of an active dispatch. -/
theorem commandsOfPass_collect (x : Externals) (o : Options) (rtOutput : RaytracingOutput)
    (s : DxvkReSTIRFG) (r : DxvkReSTIRFG × List PassWork)
    (h : dispatch x o rtOutput true s = some r) :
    collectPhotons x rtOutput (afterBuild x o s) =
      some (commandsOfPass Pass.collectPhotons r.2) := by
  obtain ⟨t, b, c, _, _, hc, rfl⟩ := dispatch_active_work x o rtOutput s r h
  rw [hc]
  split_ifs <;> simp [commandsOfPass]

/-- The commands of a resample pass in the work of an active dispatch, when
the pass was issued. -/
theorem commandsOfPass_resample (k : HistoryBuffer) (x : Externals) (o : Options)
    (rtOutput : RaytracingOutput) (s : DxvkReSTIRFG) (r : DxvkReSTIRFG × List PassWork)
    (h : dispatch x o rtOutput true s = some r)
    (hk : k.resamplePass ∈ r.2.map PassWork.pass) :
    commandsOfPass k.resamplePass r.2 = k.resampleCmds x rtOutput (afterBuild x o s) := by
  obtain ⟨t, b, c, _, _, _, rfl⟩ := dispatch_active_work x o rtOutput s r h
  revert hk
  cases k <;> split_ifs <;>
    simp [commandsOfPass, HistoryBuffer.resamplePass, HistoryBuffer.resampleCmds]
/-! ## Lemmas on generations -/

theorem prevIdx_next (c : Nat) : prevIdx (u32 (c + 1)) = currIdx c := by
  unfold currIdx prevIdx u32
  omega

theorem currIdx_cases (c : Nat) :
    (currIdx c = 0 ∧ currIdx (u32 (c + 1)) = 1) ∨
    (currIdx c = 1 ∧ currIdx (u32 (c + 1)) = 0) := by
  unfold currIdx u32
  omega

theorem generationSlice_offset_zero (b : Option DxvkBuffer) (p e : Nat) :
    (generationSlice b 0 p e).offset = 0 := by
  simp [generationSlice, u32]

theorem generationSlice_offset_one (b : Option DxvkBuffer) (p e : Nat) :
    (generationSlice b 1 p e).offset = u32 (p * e) := by
  simp [generationSlice, u32, Nat.mod_mul_mod]

/-- The slices of two consecutive generations differ as soon as the byte
length of one generation is not zero modulo `2 ^ 32`. -/
theorem generationSlice_next_ne (b : Option DxvkBuffer) (c p e : Nat)
    (h : u32 (p * e) ≠ 0) :
    generationSlice b (currIdx (u32 (c + 1))) p e ≠ generationSlice b (currIdx c) p e := by
  intro heq
  have ho := congrArg DxvkBufferSlice.offset heq
  rcases currIdx_cases c with ⟨h0, h1⟩ | ⟨h0, h1⟩
  · rw [h0, h1, generationSlice_offset_zero, generationSlice_offset_one] at ho
    exact h ho
  · rw [h0, h1, generationSlice_offset_zero, generationSlice_offset_one] at ho
    exact h ho.symm

/-! ## Claims C11 to C20 -/

/-- Two consecutive active dispatches with the same pixel count: the
previous-generation slice of the second is the collector output of the first,
and the collector output of the second differs from it when the byte length
of one generation is not zero modulo `2 ^ 32`. -/
theorem consecutive_dispatch_slices (x : Externals) (o o' : Options)
    (rtOutput rtOutput' : RaytracingOutput) (s : DxvkReSTIRFG) (hr : s.ready = true)
    (hp : pixelCountOf rtOutput' = pixelCountOf rtOutput) :
    ∃ r1 r2, dispatch x o rtOutput true s = some r1 ∧
      dispatch x o' rtOutput' true r1.1 = some r2 ∧
      ∀ k : HistoryBuffer,
        (∃ sl, collectorOutput k r1.2 = some sl) ∧
        (k.resamplePass ∈ r2.2.map PassWork.pass →
          previousInput k r2.2 = collectorOutput k r1.2) ∧
        (u32 (pixelCountOf rtOutput * k.elem) ≠ 0 →
          collectorOutput k r2.2 ≠ collectorOutput k r1.2) := by
  obtain ⟨r1, h1⟩ := dispatch_active_of_ready x o rtOutput s hr
  have e1 := (dispatch_active_eq_some x o rtOutput s r1 h1).1
  have hr1 : r1.1.ready = true := by
    rw [e1]
    exact afterDispatch_ready x o s hr
  obtain ⟨r2, h2⟩ := dispatch_active_of_ready x o' rtOutput' r1.1 hr1
  refine ⟨r1, r2, h1, h2, ?_⟩
  intro k
  have c1 := collectPhotons_boundSlice k x rtOutput _ _
    (commandsOfPass_collect x o rtOutput s r1 h1)
  have c2 := collectPhotons_boundSlice k x rtOutput' _ _
    (commandsOfPass_collect x o' rtOutput' r1.1 r2 h2)
  have hb : k.buffer (afterBuild x o' r1.1) = k.buffer s := by
    rw [afterBuild_historyBuffer, e1, afterDispatch_historyBuffer]
  have hf : (afterBuild x o' r1.1).m_frameCount = u32 (s.m_frameCount + 1) := by
    rw [afterBuild_frameCount, e1, afterDispatch_frameCount]
  rw [afterBuild_historyBuffer, afterBuild_frameCount] at c1
  rw [hb, hf, hp] at c2
  refine ⟨⟨_, c1⟩, ?_, ?_⟩
  · intro hk
    unfold previousInput collectorOutput
    rw [commandsOfPass_resample k x o' rtOutput' r1.1 r2 h2 hk,
      resampleCmds_boundSlice_prev, c1, hb, hf, hp, prevIdx_next]
  · intro hne
    unfold collectorOutput
    rw [c1, c2]
    intro heq
    exact generationSlice_next_ne _ _ _ _ hne (Option.some.inj heq)

/-- When the buffer of two generations has a non-zero size, the byte length of
one generation is not zero modulo `2 ^ 32`. -/
theorem generation_length_ne_zero (p e : Nat) (h : 0 < u32 (u32 (p * 2) * e)) :
    u32 (p * e) ≠ 0 := by
  intro h0
  have e1 : u32 (u32 (p * 2) * e) = u32 (u32 (p * e) * 2) := by
    unfold u32
    rw [Nat.mod_mul_mod, Nat.mod_mul_mod]
    congr 1
    ring
  rw [e1, h0] at h
  exact absurd h (by decide)

theorem generation_length_of_created (buffer : Option DxvkBuffer) (p e : Nat)
    (h : historyBufferCreatedFor buffer p e = true) : u32 (p * e) ≠ 0 := by
  cases buffer with
  | none => simp [historyBufferCreatedFor] at h
  | some b =>
    simp only [historyBufferCreatedFor, Bool.and_eq_true, decide_eq_true_eq] at h
    exact generation_length_ne_zero p e (h.1 ▸ h.2)

/-- The history buffers that `createDownscaledResource` makes are those
created for the pixel count of its extent, as soon as their sizes are not
zero. -/
theorem createDownscaledResource_historyBuffer (k : HistoryBuffer) (x : Externals)
    (o : Options) (e : VkExtent3D) (s0 : DxvkReSTIRFG) :
    ∃ b, k.buffer (createDownscaledResource x o e s0) = some b ∧
      b.size = u32 (u32 (u32 (e.width * e.height) * 2) * k.elem) := by
  cases k <;> exact ⟨_, rfl, rfl⟩

/-- C11. Cross-frame hand-off: for two consecutive active dispatches with the
same pixel count, on an object whose resources are present and whose five
history buffers are the (non-empty) buffers `createDownscaledResource` makes
for that pixel count, both dispatches return, and for each of the FG
reservoir, FG sample, surface, caustic reservoir and caustic sample buffers
the slice bound as previous generation by the resample pass of the second
dispatch (when that pass is issued) is exactly the slice the collector of the
first bound as output, and it is different from the slice bound as
current-generation output in the second. -/
theorem cross_frame_handoff (x : Externals) (o o' : Options)
    (rtOutput rtOutput' : RaytracingOutput) (s : DxvkReSTIRFG) (hr : s.ready = true)
    (hp : pixelCountOf rtOutput' = pixelCountOf rtOutput)
    (hb : ∀ k : HistoryBuffer,
      historyBufferCreatedFor (k.buffer s) (pixelCountOf rtOutput) k.elem = true) :
    ∃ r1 r2, dispatch x o rtOutput true s = some r1 ∧
      dispatch x o' rtOutput' true r1.1 = some r2 ∧
      ∀ k : HistoryBuffer,
        (∃ sl, collectorOutput k r1.2 = some sl) ∧
        (k.resamplePass ∈ r2.2.map PassWork.pass →
          previousInput k r2.2 = collectorOutput k r1.2) ∧
        collectorOutput k r2.2 ≠ collectorOutput k r1.2 ∧
        (k.resamplePass ∈ r2.2.map PassWork.pass →
          previousInput k r2.2 ≠ collectorOutput k r2.2) := by
  obtain ⟨r1, r2, h1, h2, hk⟩ :=
    consecutive_dispatch_slices x o o' rtOutput rtOutput' s hr hp
  refine ⟨r1, r2, h1, h2, ?_⟩
  intro k
  obtain ⟨hsome, hprev, hne⟩ := hk k
  have hdiff := hne (generation_length_of_created _ _ _ (hb k))
  refine ⟨hsome, hprev, hdiff, ?_⟩
  intro hpass heq
  exact hdiff (heq.symm.trans (hprev hpass))

/-- Witness of C11: two dispatches at 1920 x 1080 on the created object with
`causticMode = Reservoir`, where both resample passes are issued. -/
theorem cross_frame_handoff_witness :
    ∃ r1 r2, dispatch exampleExternals exampleReservoirOptions exampleOutput true
        exampleCreated = some r1 ∧
      dispatch exampleExternals exampleReservoirOptions exampleOutput true r1.1 = some r2 ∧
      ∀ k : HistoryBuffer,
        (∃ sl, collectorOutput k r1.2 = some sl) ∧
        (k.resamplePass ∈ r2.2.map PassWork.pass →
          previousInput k r2.2 = collectorOutput k r1.2) ∧
        collectorOutput k r2.2 ≠ collectorOutput k r1.2 ∧
        (k.resamplePass ∈ r2.2.map PassWork.pass →
          previousInput k r2.2 ≠ collectorOutput k r2.2) :=
  cross_frame_handoff exampleExternals exampleReservoirOptions exampleReservoirOptions
    exampleOutput exampleOutput exampleCreated (by decide) rfl
    (fun k => by cases k <;> decide)

/-- The current-generation slices that final shading reads. -/
theorem finalShading_boundSlice (k : HistoryBuffer) (b : Nat) (x : Externals)
    (rtOutput : RaytracingOutput) (s : DxvkReSTIRFG) (hb : k.finalBinding = some b) :
    boundSlice b (finalShading x rtOutput s) =
      some (generationSlice (k.buffer s) (currIdx s.m_frameCount) (pixelCountOf rtOutput)
        k.elem) := by
  cases k <;> simp only [HistoryBuffer.finalBinding, Option.some.injEq] at hb <;>
    first
    | (subst hb; rfl)
    | exact absurd hb (by simp)

/-- C12. Double-buffer layout: when the dispatch pixel count is the pixel count
of creation and `pixelCount * 96 < 2 ^ 32`, every history buffer made by
`createDownscaledResource` has size `pixelCount * 2 * elementSize` for the
element size the passes slice with (16, 16, 48, 32, 48), its generation-0 and
generation-1 slices are disjoint, lie inside the buffer and add up to its
size; and the slices that the collector writes and final shading reads, at any
frame count, are these generation slices. -/
theorem double_buffer_layout (x : Externals) (o : Options) (e : VkExtent3D)
    (s0 : DxvkReSTIRFG) (rtOutput : RaytracingOutput)
    (hp : pixelCountOf rtOutput = u32 (e.width * e.height))
    (hs : pixelCountOf rtOutput * 96 < 2 ^ 32) :
    ∀ k : HistoryBuffer,
      doubleBufferLayout (k.buffer (createDownscaledResource x o e s0))
        (pixelCountOf rtOutput) k.elem = true ∧
      (∀ c cmds,
        collectPhotons x rtOutput
            { createDownscaledResource x o e s0 with m_frameCount := c } = some cmds →
          boundSlice k.collectBinding cmds =
            some (generationSlice (k.buffer (createDownscaledResource x o e s0))
              (c % 2) (pixelCountOf rtOutput) k.elem)) ∧
      (∀ c b, k.finalBinding = some b →
          boundSlice b
              (finalShading x rtOutput
                { createDownscaledResource x o e s0 with m_frameCount := c }) =
            some (generationSlice (k.buffer (createDownscaledResource x o e s0))
              (c % 2) (pixelCountOf rtOutput) k.elem)) := by
  intro k
  refine ⟨?_, ?_, ?_⟩
  · have h2 : (2 : Nat) ^ 32 = 4294967296 := by norm_num
    rw [h2] at hs
    have hpe : u32 (e.width * e.height) = pixelCountOf rtOutput := hp.symm
    generalize pixelCountOf rtOutput = q at hs hpe
    have hq : q % 4294967296 = q := Nat.mod_eq_of_lt (by omega)
    have hq2 : q * 2 % 4294967296 = q * 2 := Nat.mod_eq_of_lt (by omega)
    have h16 : q * 16 % 4294967296 = q * 16 := Nat.mod_eq_of_lt (by omega)
    have h32 : q * 32 % 4294967296 = q * 32 := Nat.mod_eq_of_lt (by omega)
    have h48 : q * 48 % 4294967296 = q * 48 := Nat.mod_eq_of_lt (by omega)
    have h216 : q * 2 * 16 % 4294967296 = q * 2 * 16 := Nat.mod_eq_of_lt (by omega)
    have h232 : q * 2 * 32 % 4294967296 = q * 2 * 32 := Nat.mod_eq_of_lt (by omega)
    have h248 : q * 2 * 48 % 4294967296 = q * 2 * 48 := Nat.mod_eq_of_lt (by omega)
    cases k <;>
      simp only [createDownscaledResource, HistoryBuffer.buffer, HistoryBuffer.elem,
        doubleBufferLayout, generationSlice, createBuffer, hpe] <;>
      simp only [u32, h2, Bool.and_eq_true, decide_eq_true_eq, Nat.one_mul, Nat.zero_mul,
        Nat.zero_mod, hq, hq2, h16, h32, h48, h216, h232, h248, and_self, true_and] <;>
      omega
  · intro c cmds h
    have hc := collectPhotons_boundSlice k x rtOutput _ cmds h
    rw [hc]
    cases k <;> rfl
  · intro c b hb
    rw [finalShading_boundSlice k b x rtOutput _ hb]
    cases k <;> rfl

/-- Witness of C12 at 1920 x 1080 (`2073600 * 96 < 2 ^ 32`), for the five
history buffers of the created object. -/
theorem double_buffer_layout_witness :
    pixelCountOf exampleOutput = u32 (exampleExtent.width * exampleExtent.height) ∧
    pixelCountOf exampleOutput * 96 < 2 ^ 32 ∧
    doubleBufferLayout exampleCreated.m_fgReservoirBuffer (pixelCountOf exampleOutput) 16
      = true ∧
    doubleBufferLayout exampleCreated.m_causticReservoirBuffer (pixelCountOf exampleOutput) 16
      = true ∧
    doubleBufferLayout exampleCreated.m_fgSampleBuffer (pixelCountOf exampleOutput) 48
      = true ∧
    doubleBufferLayout exampleCreated.m_causticSampleBuffer (pixelCountOf exampleOutput) 32
      = true ∧
    doubleBufferLayout exampleCreated.m_surfaceBuffer (pixelCountOf exampleOutput) 48
      = true :=
  ⟨by decide, by decide,
    (double_buffer_layout exampleExternals Options.defaults exampleExtent
      DxvkReSTIRFG.constructed exampleOutput (by decide) (by decide)
      HistoryBuffer.fgReservoir).1,
    (double_buffer_layout exampleExternals Options.defaults exampleExtent
      DxvkReSTIRFG.constructed exampleOutput (by decide) (by decide)
      HistoryBuffer.causticReservoir).1,
    (double_buffer_layout exampleExternals Options.defaults exampleExtent
      DxvkReSTIRFG.constructed exampleOutput (by decide) (by decide)
      HistoryBuffer.fgSample).1,
    (double_buffer_layout exampleExternals Options.defaults exampleExtent
      DxvkReSTIRFG.constructed exampleOutput (by decide) (by decide)
      HistoryBuffer.causticSample).1,
    (double_buffer_layout exampleExternals Options.defaults exampleExtent
      DxvkReSTIRFG.constructed exampleOutput (by decide) (by decide)
      HistoryBuffer.surface).1⟩

/-! ## Lemmas on the commands of a dispatch -/

/-- The commands of the tracer. -/
theorem tracePhotons_eq_some (o : Options) (s : DxvkReSTIRFG) (t : List Cmd)
    (h : tracePhotons o s = some t) :
    ∃ counter, s.m_photonCounterBuffer = some counter ∧
      clearCommandsOf t = [(counter, 0, counter.size, 0)] ∧
      dispatchSizesOf t = [(u32 (o.photonsPerFrame + 255) / 256, 1, 1)] ∧
      buildCommandsOf t = [] := by
  simp only [tracePhotons, Option.bind_eq_bind, Option.bind_eq_some, Option.pure_def,
    Option.some.injEq] at h
  obtain ⟨counter, hc, p, _, a0, _, a1, _, rfl⟩ := h
  exact ⟨counter, hc, rfl, rfl, rfl⟩

/-- The commands of the index build: one full build of two geometries with
the configured primitive count, and no clear. -/
theorem build_commands (x : Externals) (o : Options) (s : DxvkReSTIRFG)
    (r : DxvkReSTIRFG × List Cmd)
    (h : buildPhotonAccelerationStructure x o s = some r) :
    ∃ info, buildCommandsOf r.2 =
        [(info, [⟨o.photonsPerFrame, 0, 0, 0⟩, ⟨o.photonsPerFrame, 0, 0, 0⟩])] ∧
      info.mode = BuildMode.BUILD ∧ info.srcAccelerationStructure = none ∧
      info.geometries.length = 2 ∧
      info.geometries.map AabbGeometry.deviceAddress =
        [s.m_photonAABBBuffer_0.map DxvkBuffer.deviceAddress,
         s.m_photonAABBBuffer_1.map DxvkBuffer.deviceAddress].reduceOption ∧
      clearCommandsOf r.2 = [] := by
  simp only [buildPhotonAccelerationStructure, Option.bind_eq_bind, Option.bind_eq_some,
    Option.pure_def, Option.some.injEq] at h
  obtain ⟨a0, h0, a1, h1, d, _, sc, _, b, _, rfl⟩ := h
  refine ⟨_, rfl, rfl, rfl, rfl, ?_, rfl⟩
  simp [h0, h1, List.reduceOption]

theorem collectPhotons_no_build_no_clear (x : Externals) (rtOutput : RaytracingOutput)
    (s : DxvkReSTIRFG) (c : List Cmd) (h : collectPhotons x rtOutput s = some c) :
    buildCommandsOf c = [] ∧ clearCommandsOf c = [] := by
  simp only [collectPhotons, Option.bind_eq_bind, Option.bind_eq_some, Option.pure_def,
    Option.some.injEq] at h
  obtain ⟨p, _, a0, _, a1, _, rfl⟩ := h
  exact ⟨rfl, rfl⟩

theorem buildCommandsOf_append (a b : List Cmd) :
    buildCommandsOf (a ++ b) = buildCommandsOf a ++ buildCommandsOf b := by
  simp [buildCommandsOf]

theorem clearCommandsOf_append (a b : List Cmd) :
    clearCommandsOf (a ++ b) = clearCommandsOf a ++ clearCommandsOf b := by
  simp [clearCommandsOf]

/-- The commands of an active dispatch, pass after pass. -/
theorem commandsOf_dispatch (x : Externals) (o : Options) (rtOutput : RaytracingOutput)
    (s : DxvkReSTIRFG) (r : DxvkReSTIRFG × List PassWork)
    (h : dispatch x o rtOutput true s = some r) :
    ∃ t b c, tracePhotons o s = some t ∧
      buildPhotonAccelerationStructure x o s = some (afterBuild x o s, b) ∧
      collectPhotons x rtOutput (afterBuild x o s) = some c ∧
      commandsOfPass Pass.tracePhotons r.2 = t ∧
      commandsOfPass Pass.buildPhotonAccelerationStructure r.2 = b ∧
      commandsOf r.2 = t ++ (b ++ (c ++
        ((if s.m_canResample &&
              decide (o.resamplingMode ≠ ReSTIRFGResamplingMode.Spatial) then
            resampleFinalGather x rtOutput (afterBuild x o s) else []) ++
        ((if s.m_canResample &&
              decide (o.causticMode = ReSTIRFGCausticMode.Reservoir) then
            resampleCaustics x rtOutput (afterBuild x o s) else []) ++
        finalShading x rtOutput (afterBuild x o s))))) := by
  obtain ⟨t, b, c, ht, hb, hc, rfl⟩ := dispatch_active_work x o rtOutput s r h
  refine ⟨t, b, c, ht, hb, hc, ?_, ?_, ?_⟩
  · split_ifs <;> simp [commandsOfPass]
  · split_ifs <;> simp [commandsOfPass]
  · split_ifs <;> simp [commandsOf]

/-- The index builds and the clears of a whole active dispatch are those of
the index build pass and of the tracer. -/
theorem dispatch_builds_and_clears (x : Externals) (o : Options)
    (rtOutput : RaytracingOutput) (s : DxvkReSTIRFG) (r : DxvkReSTIRFG × List PassWork)
    (h : dispatch x o rtOutput true s = some r) :
    buildCommandsOf (commandsOf r.2) =
      buildCommandsOf (commandsOfPass Pass.buildPhotonAccelerationStructure r.2) ∧
    clearCommandsOf (commandsOf r.2) =
      clearCommandsOf (commandsOfPass Pass.tracePhotons r.2) := by
  obtain ⟨t, b, c, ht, hb, hc, et, eb, e⟩ := commandsOf_dispatch x o rtOutput s r h
  obtain ⟨_, _, _, ht3⟩ := tracePhotons_eq_some o s t ht
  obtain ⟨_, _, _, _, _, _, hb3⟩ := build_commands x o s _ hb
  obtain ⟨hc1, hc2⟩ := collectPhotons_no_build_no_clear x rtOutput _ c hc
  have f1 : buildCommandsOf (finalShading x rtOutput (afterBuild x o s)) = [] := rfl
  have f2 : clearCommandsOf (finalShading x rtOutput (afterBuild x o s)) = [] := rfl
  have g1 : buildCommandsOf (resampleFinalGather x rtOutput (afterBuild x o s)) = [] := rfl
  have g2 : clearCommandsOf (resampleFinalGather x rtOutput (afterBuild x o s)) = [] := rfl
  have k1 : buildCommandsOf (resampleCaustics x rtOutput (afterBuild x o s)) = [] := rfl
  have k2 : clearCommandsOf (resampleCaustics x rtOutput (afterBuild x o s)) = [] := rfl
  have n1 : buildCommandsOf ([] : List Cmd) = [] := rfl
  have n2 : clearCommandsOf ([] : List Cmd) = [] := rfl
  simp only at hb3
  rw [e, et, eb]
  constructor
  · simp only [buildCommandsOf_append, ht3, hc1, f1, List.nil_append, List.append_nil]
    split_ifs <;> simp only [g1, k1, n1, List.append_nil]
  · simp only [clearCommandsOf_append, hb3, hc2, f2, List.nil_append, List.append_nil]
    split_ifs <;> simp only [g2, k2, n2, List.append_nil]
/-- C13 on the code, at a concrete run: the resources are created with
`photonsPerFrame = 10000`, the option is then raised to `1000000` (both inside
the range of the settings window), and an active dispatch follows.  Each AABB
buffer has 480000 bytes, and the index build is asked to read, from offset 0,
`1000000 * 24 = 24000000` bytes of each. -/
theorem index_build_reads_past_aabb_buffer :
    ((run exampleExternals
        [Op.createDownscaledResource exampleExtent, Op.setOptions exampleMaxPhotonOptions]
        ⟨exampleMinPhotonOptions, DxvkReSTIRFG.constructed⟩).bind fun w =>
      (dispatch exampleExternals w.options exampleOutput true w.obj).map fun r =>
        (w.obj.m_photonAABBBuffer_0.map DxvkBuffer.size,
         w.obj.m_photonAABBBuffer_1.map DxvkBuffer.size,
         (buildCommandsOf (commandsOf r.2)).map fun c =>
           c.2.map fun g => (g.primitiveOffset, g.primitiveCount * sizeof_VkAabbPositionsKHR)))
      = some (some 480000, some 480000, [[(0, 24000000), (0, 24000000)]]) ∧
    (480000 : Nat) < 24000000 := by
  refine ⟨by decide, by decide⟩

/-- C14 does not hold as stated: with the stored value `photonsPerFrame = 5`
the photon buffer is created with `2 * 5 * 32 = 320` bytes, the tracer
dispatches one workgroup and the index build gets 5 primitives per stream;
nothing is clamped to 10000. -/
theorem photonsPerFrame_clamp_counterexample :
    exampleTinyPhotonOptions.photonsPerFrame = 5 ∧
    (createDownscaledResource exampleExternals exampleTinyPhotonOptions exampleExtent
      DxvkReSTIRFG.constructed).m_photonBuffer.map DxvkBuffer.size = some 320 ∧
    ((dispatch exampleExternals exampleTinyPhotonOptions exampleOutput true
        exampleCreated).map fun r =>
      (dispatchSizesOf (commandsOfPass Pass.tracePhotons r.2),
       (buildCommandsOf (commandsOf r.2)).map fun c =>
         c.2.map BuildRangeInfo.primitiveCount))
      = some ([(1, 1, 1)], [[5, 5]]) ∧
    ¬ (10000 ≤ 5 ∧ 5 ≤ 1000000) := by
  refine ⟨by decide, by decide, by decide, by decide⟩

/-- C14 as amended: `createDownscaledResource`, `tracePhotons` and
`buildPhotonAccelerationStructure` use the stored value of `photonsPerFrame`
as it is, without clamping: the photon buffer has `((2 p) mod 2^32) * 32 mod
2^32` bytes, each AABB buffer `((2 p) mod 2^32) * 24` bytes, the tracer
dispatches `((p + 255) mod 2^32) / 256` workgroups, and both primitive counts
of the index build are `p`.  So the value used is in `[10000, 1000000]`
exactly when the stored value is. -/
theorem photonsPerFrame_used_unclamped (x : Externals) (o : Options) (e : VkExtent3D)
    (s0 : DxvkReSTIRFG) (rtOutput : RaytracingOutput) (s : DxvkReSTIRFG)
    (hr : s.ready = true) :
    (createDownscaledResource x o e s0).m_photonBuffer.map DxvkBuffer.size =
      some (u32 (u32 (o.photonsPerFrame * 2) * 32)) ∧
    (createDownscaledResource x o e s0).m_photonAABBBuffer_0.map DxvkBuffer.size =
      some (u64 (u32 (o.photonsPerFrame * 2) * 24)) ∧
    (createDownscaledResource x o e s0).m_photonAABBBuffer_1.map DxvkBuffer.size =
      some (u64 (u32 (o.photonsPerFrame * 2) * 24)) ∧
    ∃ r, dispatch x o rtOutput true s = some r ∧
      dispatchSizesOf (commandsOfPass Pass.tracePhotons r.2) =
        [(u32 (o.photonsPerFrame + 255) / 256, 1, 1)] ∧
      (buildCommandsOf (commandsOf r.2)).map
          (fun c => c.2.map BuildRangeInfo.primitiveCount) =
        [[o.photonsPerFrame, o.photonsPerFrame]] := by
  refine ⟨rfl, rfl, rfl, ?_⟩
  obtain ⟨r, h⟩ := dispatch_active_of_ready x o rtOutput s hr
  refine ⟨r, h, ?_, ?_⟩
  · obtain ⟨t, b, c, ht, _, _, et, _, _⟩ := commandsOf_dispatch x o rtOutput s r h
    obtain ⟨_, _, _, hd, _⟩ := tracePhotons_eq_some o s t ht
    rw [et, hd]
  · obtain ⟨t, b, c, _, hb, _, _, eb, _⟩ := commandsOf_dispatch x o rtOutput s r h
    obtain ⟨info, hi, _⟩ := build_commands x o s _ hb
    rw [(dispatch_builds_and_clears x o rtOutput s r h).1, eb]
    simp only at hi
    rw [hi]
    rfl

/-- Witness of the amended C14 with the default `photonsPerFrame = 100000`. -/
theorem photonsPerFrame_used_unclamped_witness :
    (createDownscaledResource exampleExternals Options.defaults exampleExtent
      DxvkReSTIRFG.constructed).m_photonBuffer.map DxvkBuffer.size =
      some (u32 (u32 (100000 * 2) * 32)) ∧
    (createDownscaledResource exampleExternals Options.defaults exampleExtent
      DxvkReSTIRFG.constructed).m_photonAABBBuffer_0.map DxvkBuffer.size =
      some (u64 (u32 (100000 * 2) * 24)) ∧
    (createDownscaledResource exampleExternals Options.defaults exampleExtent
      DxvkReSTIRFG.constructed).m_photonAABBBuffer_1.map DxvkBuffer.size =
      some (u64 (u32 (100000 * 2) * 24)) ∧
    ∃ r, dispatch exampleExternals Options.defaults exampleOutput true exampleCreated
        = some r ∧
      dispatchSizesOf (commandsOfPass Pass.tracePhotons r.2) =
        [(u32 (100000 + 255) / 256, 1, 1)] ∧
      (buildCommandsOf (commandsOf r.2)).map
          (fun c => c.2.map BuildRangeInfo.primitiveCount) =
        [[100000, 100000]] :=
  photonsPerFrame_used_unclamped exampleExternals Options.defaults exampleExtent
    DxvkReSTIRFG.constructed exampleOutput exampleCreated (by decide)

/-- C15 on the code: `isEnabled` compares `integrateIndirectMode` with
`ReSTIRFG` and never reads the `enable` option; with the default
`enable = false` and `integrateIndirectMode = ReSTIRFG` it returns true. -/
theorem isEnabled_ignores_enable_option :
    Options.defaults.enable = false ∧
    isEnabled IntegrateIndirectMode.ReSTIRFG Options.defaults = true ∧
    (∀ (m : IntegrateIndirectMode) (o : Options),
      isEnabled m { o with enable := false } = isEnabled m { o with enable := true }) ∧
    isEnabled (IntegrateIndirectMode.other 0) { Options.defaults with enable := true }
      = false := by
  refine ⟨rfl, rfl, ?_, rfl⟩
  intro m o
  rfl

/-- C16. Preset values: `setToNRDPreset` sets `spatialSamples = 2`,
`spatialRadius = 15`, `temporalHistoryLength = 20`;
`setToRayReconstructionPreset` sets 4, 25, 40 and
`biasCorrectionMode = Pairwise`; so from any two starting configurations the
first preset gives a strictly shorter history, strictly fewer spatial samples
and a strictly smaller radius than the second, and every value set is inside
the range of its control (`[1, 16]`, `[1, 100]`, `[1, 100]`). -/
theorem preset_values (o o' : Options) :
    ((setToNRDPreset o).spatialSamples = 2 ∧
      (setToNRDPreset o).spatialRadius = 15 ∧
      (setToNRDPreset o).temporalHistoryLength = 20) ∧
    ((setToRayReconstructionPreset o').spatialSamples = 4 ∧
      (setToRayReconstructionPreset o').spatialRadius = 25 ∧
      (setToRayReconstructionPreset o').temporalHistoryLength = 40 ∧
      (setToRayReconstructionPreset o').biasCorrectionMode =
        ReSTIRFGBiasCorrectionMode.Pairwise) ∧
    ((setToNRDPreset o).temporalHistoryLength <
        (setToRayReconstructionPreset o').temporalHistoryLength ∧
      (setToNRDPreset o).spatialSamples <
        (setToRayReconstructionPreset o').spatialSamples ∧
      (setToNRDPreset o).spatialRadius <
        (setToRayReconstructionPreset o').spatialRadius) ∧
    ((1 ≤ (setToNRDPreset o).spatialSamples ∧ (setToNRDPreset o).spatialSamples ≤ 16) ∧
      (1 ≤ (setToNRDPreset o).spatialRadius ∧ (setToNRDPreset o).spatialRadius ≤ 100) ∧
      (1 ≤ (setToNRDPreset o).temporalHistoryLength ∧
        (setToNRDPreset o).temporalHistoryLength ≤ 100)) ∧
    ((1 ≤ (setToRayReconstructionPreset o').spatialSamples ∧
        (setToRayReconstructionPreset o').spatialSamples ≤ 16) ∧
      (1 ≤ (setToRayReconstructionPreset o').spatialRadius ∧
        (setToRayReconstructionPreset o').spatialRadius ≤ 100) ∧
      (1 ≤ (setToRayReconstructionPreset o').temporalHistoryLength ∧
        (setToRayReconstructionPreset o').temporalHistoryLength ≤ 100)) := by
  simp only [setToNRDPreset, setToRayReconstructionPreset]
  norm_num

/-- C17. Preset frame: putting back the three values that `setToNRDPreset`
writes gives the starting options, and so does putting back the four values
that `setToRayReconstructionPreset` writes; as operations both leave the
object (with `m_frameCount` and `m_canResample`) as it is; each preset is
idempotent; and the NRD preset after the ray-reconstruction preset leaves
`biasCorrectionMode = Pairwise`. -/
theorem preset_frame (x : Externals) (o : Options) (w : World) :
    { setToNRDPreset o with
        spatialSamples := o.spatialSamples
        spatialRadius := o.spatialRadius
        temporalHistoryLength := o.temporalHistoryLength } = o ∧
    { setToRayReconstructionPreset o with
        spatialSamples := o.spatialSamples
        spatialRadius := o.spatialRadius
        temporalHistoryLength := o.temporalHistoryLength
        biasCorrectionMode := o.biasCorrectionMode } = o ∧
    (setToNRDPreset o).biasCorrectionMode = o.biasCorrectionMode ∧
    step x w Op.setToNRDPreset = some ⟨setToNRDPreset w.options, w.obj⟩ ∧
    step x w Op.setToRayReconstructionPreset =
      some ⟨setToRayReconstructionPreset w.options, w.obj⟩ ∧
    setToNRDPreset (setToNRDPreset o) = setToNRDPreset o ∧
    setToRayReconstructionPreset (setToRayReconstructionPreset o) =
      setToRayReconstructionPreset o ∧
    (setToNRDPreset (setToRayReconstructionPreset o)).biasCorrectionMode =
      ReSTIRFGBiasCorrectionMode.Pairwise := by
  refine ⟨?_, ?_, rfl, rfl, rfl, rfl, rfl, rfl⟩
  · cases o
    rfl
  · cases o
    rfl

/-- C18. Index build: an active dispatch on an object whose resources are
present returns and records exactly one index build, in its index build pass;
the build is a full build (`mode = BUILD`, no source structure) of two
geometries, the global and the caustic AABB buffer, each with primitive count
`photonsPerFrame` and offset 0.  The counts are a function of the option
alone: the host reads no photon counter. -/
theorem index_build_from_scratch (x : Externals) (o : Options)
    (rtOutput : RaytracingOutput) (s : DxvkReSTIRFG) (hr : s.ready = true) :
    ∃ r info, dispatch x o rtOutput true s = some r ∧
      buildCommandsOf (commandsOf r.2) =
        [(info, [⟨o.photonsPerFrame, 0, 0, 0⟩, ⟨o.photonsPerFrame, 0, 0, 0⟩])] ∧
      buildCommandsOf (commandsOfPass Pass.buildPhotonAccelerationStructure r.2) =
        buildCommandsOf (commandsOf r.2) ∧
      info.mode = BuildMode.BUILD ∧
      info.srcAccelerationStructure = none ∧
      info.geometries.map AabbGeometry.deviceAddress =
        [s.m_photonAABBBuffer_0.map DxvkBuffer.deviceAddress,
         s.m_photonAABBBuffer_1.map DxvkBuffer.deviceAddress].reduceOption ∧
      info.geometries.length = 2 := by
  obtain ⟨r, h⟩ := dispatch_active_of_ready x o rtOutput s hr
  obtain ⟨t, b, c, _, hb, _, _, eb, _⟩ := commandsOf_dispatch x o rtOutput s r h
  obtain ⟨info, hi, hm, hsrc, hl, hg, _⟩ := build_commands x o s _ hb
  have e := (dispatch_builds_and_clears x o rtOutput s r h).1
  simp only at hi
  refine ⟨r, info, h, ?_, e.symm, hm, hsrc, hg, hl⟩
  rw [e, eb, hi]

/-- Witness of C18 with the default options. -/
theorem index_build_from_scratch_witness :
    ∃ r info, dispatch exampleExternals Options.defaults exampleOutput true exampleWarm
        = some r ∧
      buildCommandsOf (commandsOf r.2) =
        [(info, [⟨100000, 0, 0, 0⟩, ⟨100000, 0, 0, 0⟩])] ∧
      buildCommandsOf (commandsOfPass Pass.buildPhotonAccelerationStructure r.2) =
        buildCommandsOf (commandsOf r.2) ∧
      info.mode = BuildMode.BUILD ∧
      info.srcAccelerationStructure = none ∧
      info.geometries.map AabbGeometry.deviceAddress =
        [exampleWarm.m_photonAABBBuffer_0.map DxvkBuffer.deviceAddress,
         exampleWarm.m_photonAABBBuffer_1.map DxvkBuffer.deviceAddress].reduceOption ∧
      info.geometries.length = 2 :=
  index_build_from_scratch exampleExternals Options.defaults exampleOutput exampleWarm
    (by decide)

/-- C19 does not hold: in an active dispatch with the default options the only
buffer cleared is the 16-byte photon counter buffer; neither photon AABB
buffer is cleared before the index build reads it. -/
theorem aabb_buffers_not_cleared_counterexample :
    ((dispatch exampleExternals Options.defaults exampleOutput true exampleCreated).map
      fun r => clearCommandsOf (commandsOf r.2)) =
      some [(createBuffer exampleExternals 16 "ReSTIR-FG Photon Counter", 0, 16, 0)] ∧
    some (createBuffer exampleExternals 16 "ReSTIR-FG Photon Counter") ≠
      exampleCreated.m_photonAABBBuffer_0 ∧
    some (createBuffer exampleExternals 16 "ReSTIR-FG Photon Counter") ≠
      exampleCreated.m_photonAABBBuffer_1 := by
  refine ⟨by decide, by decide, by decide⟩

/-- C19 as amended: in every active dispatch on an object whose resources are
present, the host records exactly one clear, of the whole photon counter
buffer to zero, in the tracer; it records no clear of a photon AABB buffer,
and the index build reads `photonsPerFrame` AABBs from offset 0 of each. -/
theorem only_photon_counter_cleared (x : Externals) (o : Options)
    (rtOutput : RaytracingOutput) (s : DxvkReSTIRFG) (hr : s.ready = true) :
    ∃ r counter info, dispatch x o rtOutput true s = some r ∧
      s.m_photonCounterBuffer = some counter ∧
      clearCommandsOf (commandsOf r.2) = [(counter, 0, counter.size, 0)] ∧
      clearCommandsOf (commandsOfPass Pass.tracePhotons r.2) =
        clearCommandsOf (commandsOf r.2) ∧
      buildCommandsOf (commandsOf r.2) =
        [(info, [⟨o.photonsPerFrame, 0, 0, 0⟩, ⟨o.photonsPerFrame, 0, 0, 0⟩])] ∧
      info.geometries.map AabbGeometry.deviceAddress =
        [s.m_photonAABBBuffer_0.map DxvkBuffer.deviceAddress,
         s.m_photonAABBBuffer_1.map DxvkBuffer.deviceAddress].reduceOption := by
  obtain ⟨r, h⟩ := dispatch_active_of_ready x o rtOutput s hr
  obtain ⟨t, b, c, ht, hb, _, et, eb, _⟩ := commandsOf_dispatch x o rtOutput s r h
  obtain ⟨counter, hc, hcl, _, _⟩ := tracePhotons_eq_some o s t ht
  obtain ⟨info, hi, _, _, _, hg, _⟩ := build_commands x o s _ hb
  obtain ⟨e1, e2⟩ := dispatch_builds_and_clears x o rtOutput s r h
  simp only at hi
  refine ⟨r, counter, info, h, hc, ?_, e2.symm, ?_, hg⟩
  · rw [e2, et, hcl]
  · rw [e1, eb, hi]

/-- Witness of the amended C19 at the created object. -/
theorem only_photon_counter_cleared_witness :
    ∃ r counter info, dispatch exampleExternals Options.defaults exampleOutput true
        exampleCreated = some r ∧
      exampleCreated.m_photonCounterBuffer = some counter ∧
      clearCommandsOf (commandsOf r.2) = [(counter, 0, counter.size, 0)] ∧
      clearCommandsOf (commandsOfPass Pass.tracePhotons r.2) =
        clearCommandsOf (commandsOf r.2) ∧
      buildCommandsOf (commandsOf r.2) =
        [(info, [⟨100000, 0, 0, 0⟩, ⟨100000, 0, 0, 0⟩])] ∧
      info.geometries.map AabbGeometry.deviceAddress =
        [exampleCreated.m_photonAABBBuffer_0.map DxvkBuffer.deviceAddress,
         exampleCreated.m_photonAABBBuffer_1.map DxvkBuffer.deviceAddress].reduceOption :=
  only_photon_counter_cleared exampleExternals Options.defaults exampleOutput
    exampleCreated (by decide)

/-- C20. Final combiner, with the shader modelled from the spec: each output
is `weightSum / max(M, 1) * f(sample) / targetFunction(sample)` of its own
reservoir, the reservoirs and samples are returned unchanged, and the outputs
are a function of the reservoirs and samples alone.  On the host side, the
final shading shader declares the four reservoir and sample buffers read-only,
its only writable parameters are the two output textures, and `finalShading`
binds these to the diffuse and the specular indirect radiance. -/
theorem final_combiner_radiance {FgSample CausticSample : Type}
    (fFg targetFg : FgSample → Rat) (fCaustic targetCaustic : CausticSample → Rat)
    (p q : CombinerPixel FgSample CausticSample)
    (x : Externals) (rtOutput : RaytracingOutput) (s : DxvkReSTIRFG) :
    (finalCombiner fFg targetFg fCaustic targetCaustic p).diffuseIndirect =
      p.fgReservoir.weightSum / ((max p.fgReservoir.M 1 : Nat) : Rat) * fFg p.fgSample /
        targetFg p.fgSample ∧
    (finalCombiner fFg targetFg fCaustic targetCaustic p).specularIndirect =
      p.causticReservoir.weightSum / ((max p.causticReservoir.M 1 : Nat) : Rat) *
        fCaustic p.causticSample / targetCaustic p.causticSample ∧
    (finalCombiner fFg targetFg fCaustic targetCaustic p).fgReservoir = p.fgReservoir ∧
    (finalCombiner fFg targetFg fCaustic targetCaustic p).fgSample = p.fgSample ∧
    (finalCombiner fFg targetFg fCaustic targetCaustic p).causticReservoir =
      p.causticReservoir ∧
    (finalCombiner fFg targetFg fCaustic targetCaustic p).causticSample =
      p.causticSample ∧
    (p.fgReservoir = q.fgReservoir → p.fgSample = q.fgSample →
      (finalCombiner fFg targetFg fCaustic targetCaustic p).diffuseIndirect =
        (finalCombiner fFg targetFg fCaustic targetCaustic q).diffuseIndirect) ∧
    (p.causticReservoir = q.causticReservoir → p.causticSample = q.causticSample →
      (finalCombiner fFg targetFg fCaustic targetCaustic p).specularIndirect =
        (finalCombiner fFg targetFg fCaustic targetCaustic q).specularIndirect) ∧
    Shader.ReSTIRFGFinalShadingShader.writableBindings =
      [RESTIR_FG_FINAL_SHADING_BINDING_OUTPUT,
       RESTIR_FG_FINAL_SHADING_BINDING_CAUSTIC_OUTPUT] ∧
    (∀ k b, HistoryBuffer.finalBinding k = some b →
      (ParameterKind.STRUCTURED_BUFFER, b) ∈
        Shader.ReSTIRFGFinalShadingShader.parameters) ∧
    writtenViewsOf (finalShading x rtOutput s) =
      [(RESTIR_FG_FINAL_SHADING_BINDING_OUTPUT, RtView.m_primaryIndirectDiffuseRadiance),
       (RESTIR_FG_FINAL_SHADING_BINDING_CAUSTIC_OUTPUT,
        RtView.m_primaryIndirectSpecularRadiance)] := by
  refine ⟨rfl, rfl, rfl, rfl, rfl, rfl, ?_, ?_, rfl, ?_, rfl⟩
  · intro h1 h2
    simp only [finalCombiner, h1, h2]
  · intro h1 h2
    simp only [finalCombiner, h1, h2]
  · intro k b hb
    cases k <;> simp only [HistoryBuffer.finalBinding, Option.some.injEq] at hb <;>
      first
      | (subst hb; decide)
      | exact absurd hb (by simp)

/-! ## Further lemmas on the commands of a dispatch -/

/-- The tracer starts with the clear of the counter buffer and ends with its
compute dispatch. -/
theorem tracePhotons_clear_first (o : Options) (s : DxvkReSTIRFG) (t : List Cmd)
    (h : tracePhotons o s = some t) :
    ∃ counter rest, s.m_photonCounterBuffer = some counter ∧
      t = Cmd.clearBuffer counter 0 counter.size 0 ::
        (rest ++ [Cmd.dispatch (u32 (o.photonsPerFrame + 255) / 256) 1 1]) ∧
      clearCommandsOf rest = [] ∧ dispatchSizesOf rest = [] := by
  simp only [tracePhotons, Option.bind_eq_bind, Option.bind_eq_some, Option.pure_def,
    Option.some.injEq] at h
  obtain ⟨counter, hc, p, _, a0, _, a1, _, rfl⟩ := h
  exact ⟨counter,
    [Cmd.bindCommonRayTracingResources,
     Cmd.bindResourceBuffer RESTIR_FG_TRACE_BINDING_PHOTON_BUFFER_OUTPUT (wholeSlice p),
     Cmd.bindResourceBuffer RESTIR_FG_TRACE_BINDING_PHOTON_AABB_GLOBAL_OUTPUT (wholeSlice a0),
     Cmd.bindResourceBuffer RESTIR_FG_TRACE_BINDING_PHOTON_AABB_CAUSTIC_OUTPUT (wholeSlice a1),
     Cmd.bindResourceBuffer RESTIR_FG_TRACE_BINDING_PHOTON_COUNTER (wholeSlice counter),
     Cmd.bindShader Shader.ReSTIRFGTracePhotonsShader],
    hc, rfl, rfl, rfl⟩

/-- The current-generation slices of the resample passes. -/
theorem resampleCmds_boundSlice_curr (k : HistoryBuffer) (x : Externals)
    (rtOutput : RaytracingOutput) (s : DxvkReSTIRFG) :
    boundSlice k.currBinding (k.resampleCmds x rtOutput s) =
      some (generationSlice (k.buffer s) (currIdx s.m_frameCount) (pixelCountOf rtOutput)
        k.elem) := by
  cases k <;> rfl

/-- The commands of final shading in the work of an active dispatch. -/
theorem commandsOfPass_finalShading (x : Externals) (o : Options)
    (rtOutput : RaytracingOutput) (s : DxvkReSTIRFG) (r : DxvkReSTIRFG × List PassWork)
    (h : dispatch x o rtOutput true s = some r) :
    commandsOfPass Pass.finalShading r.2 = finalShading x rtOutput (afterBuild x o s) := by
  obtain ⟨t, b, c, _, _, _, rfl⟩ := dispatch_active_work x o rtOutput s r h
  split_ifs <;> simp [commandsOfPass]

theorem afterDispatch_counterBuffer (x : Externals) (o : Options) (s : DxvkReSTIRFG) :
    (afterDispatch x o s).m_photonCounterBuffer = s.m_photonCounterBuffer := by
  show (afterBuild x o s).m_photonCounterBuffer = s.m_photonCounterBuffer
  rw [afterBuild_frame]

/-! ## Claims C21 to C27 -/

/-- C22. Per-frame photon counter reset: `createDownscaledResource` makes the
counter buffer with 16 bytes; in every active dispatch on an object whose
resources are present the first command of the tracer clears the counter
buffer from offset 0 over its whole size to zero, the tracer records no other
clear, its single compute dispatch is its last command, and the dispatch
leaves the counter buffer member as it is. -/
theorem photon_counter_cleared_before_trace (x : Externals) (o : Options)
    (rtOutput : RaytracingOutput) (s : DxvkReSTIRFG) (hr : s.ready = true) :
    (∀ (o0 : Options) (e : VkExtent3D) (s0 : DxvkReSTIRFG),
      (createDownscaledResource x o0 e s0).m_photonCounterBuffer.map DxvkBuffer.size =
        some 16) ∧
    ∃ r counter rest, dispatch x o rtOutput true s = some r ∧
      s.m_photonCounterBuffer = some counter ∧
      commandsOfPass Pass.tracePhotons r.2 =
        Cmd.clearBuffer counter 0 counter.size 0 ::
          (rest ++ [Cmd.dispatch (u32 (o.photonsPerFrame + 255) / 256) 1 1]) ∧
      clearCommandsOf rest = [] ∧ dispatchSizesOf rest = [] ∧
      r.1.m_photonCounterBuffer = some counter := by
  refine ⟨fun _ _ _ => rfl, ?_⟩
  obtain ⟨r, h⟩ := dispatch_active_of_ready x o rtOutput s hr
  obtain ⟨t, b, c, ht, _, _, et, _, _⟩ := commandsOf_dispatch x o rtOutput s r h
  obtain ⟨counter, rest, hc, e, h1, h2⟩ := tracePhotons_clear_first o s t ht
  refine ⟨r, counter, rest, h, hc, ?_, h1, h2, ?_⟩
  · rw [et, e]
  · rw [(dispatch_active_eq_some x o rtOutput s r h).1, afterDispatch_counterBuffer, hc]

/-- Witness of C22 at the created object, whose counter buffer has 16 bytes. -/
theorem photon_counter_cleared_before_trace_witness :
    exampleCreated.m_photonCounterBuffer.map DxvkBuffer.size = some 16 ∧
    ∃ r counter rest, dispatch exampleExternals Options.defaults exampleOutput true
        exampleCreated = some r ∧
      exampleCreated.m_photonCounterBuffer = some counter ∧
      commandsOfPass Pass.tracePhotons r.2 =
        Cmd.clearBuffer counter 0 counter.size 0 ::
          (rest ++ [Cmd.dispatch (u32 (Options.defaults.photonsPerFrame + 255) / 256) 1 1]) ∧
      clearCommandsOf rest = [] ∧ dispatchSizesOf rest = [] ∧
      r.1.m_photonCounterBuffer = some counter :=
  ⟨rfl, (photon_counter_cleared_before_trace exampleExternals Options.defaults
    exampleOutput exampleCreated (by decide)).2⟩

/-- C23. Inactive dispatch is a no-op: when `isActive()` is false, `dispatch`
returns, calls no pass function and leaves the object as it is, with
`m_frameCount`, `m_canResample` and the generation index. -/
theorem inactive_dispatch_is_noop (x : Externals) (o : Options)
    (rtOutput : RaytracingOutput) (s : DxvkReSTIRFG) :
    ∃ r, dispatch x o rtOutput false s = some r ∧
      r.2 = [] ∧ commandsOf r.2 = [] ∧ r.1 = s ∧
      r.1.m_frameCount = s.m_frameCount ∧ r.1.m_canResample = s.m_canResample ∧
      currIdx r.1.m_frameCount = currIdx s.m_frameCount :=
  ⟨(s, []), dispatch_inactive x o rtOutput s, rfl, rfl, rfl, rfl, rfl, rfl⟩

/-- C24. Within one active dispatch on an object whose resources are present,
for each of the FG reservoir, FG sample, caustic reservoir and caustic sample
buffers, the slice final shading reads is the slice the collector wrote, it is
the slice the resample pass bound as current generation (when that pass is
issued), and it is the generation `m_frameCount % 2` of the frame count at
entry; the counter is incremented only in the object returned. -/
theorem passes_agree_on_current_generation (x : Externals) (o : Options)
    (rtOutput : RaytracingOutput) (s : DxvkReSTIRFG) (hr : s.ready = true) :
    ∃ r, dispatch x o rtOutput true s = some r ∧
      r.1.m_frameCount = u32 (s.m_frameCount + 1) ∧
      ∀ k b, HistoryBuffer.finalBinding k = some b →
        collectorOutput k r.2 =
          some (generationSlice (k.buffer s) (currIdx s.m_frameCount)
            (pixelCountOf rtOutput) k.elem) ∧
        boundSlice b (commandsOfPass Pass.finalShading r.2) = collectorOutput k r.2 ∧
        (k.resamplePass ∈ r.2.map PassWork.pass →
          boundSlice k.currBinding (commandsOfPass k.resamplePass r.2) =
            collectorOutput k r.2) := by
  obtain ⟨r, h⟩ := dispatch_active_of_ready x o rtOutput s hr
  refine ⟨r, h, ?_, ?_⟩
  · rw [(dispatch_active_eq_some x o rtOutput s r h).1, afterDispatch_frameCount]
  · intro k b hb
    have c1 := collectPhotons_boundSlice k x rtOutput _ _
      (commandsOfPass_collect x o rtOutput s r h)
    have hc : collectorOutput k r.2 =
        some (generationSlice (k.buffer (afterBuild x o s))
          (currIdx (afterBuild x o s).m_frameCount) (pixelCountOf rtOutput) k.elem) := c1
    refine ⟨?_, ?_, ?_⟩
    · rw [hc, afterBuild_historyBuffer, afterBuild_frameCount]
    · rw [hc, commandsOfPass_finalShading x o rtOutput s r h,
        finalShading_boundSlice k b x rtOutput _ hb]
    · intro hk
      rw [hc, commandsOfPass_resample k x o rtOutput s r h hk, resampleCmds_boundSlice_curr]

/-- Witness of C24 at the second dispatch of a run with
`causticMode = Reservoir`, where both resample passes are issued. -/
theorem passes_agree_on_current_generation_witness :
    ∃ r, dispatch exampleExternals exampleReservoirOptions exampleOutput true exampleWarm
        = some r ∧
      r.1.m_frameCount = u32 (exampleWarm.m_frameCount + 1) ∧
      ∀ k b, HistoryBuffer.finalBinding k = some b →
        collectorOutput k r.2 =
          some (generationSlice (k.buffer exampleWarm) (currIdx exampleWarm.m_frameCount)
            (pixelCountOf exampleOutput) k.elem) ∧
        boundSlice b (commandsOfPass Pass.finalShading r.2) = collectorOutput k r.2 ∧
        (k.resamplePass ∈ r.2.map PassWork.pass →
          boundSlice k.currBinding (commandsOfPass k.resamplePass r.2) =
            collectorOutput k r.2) :=
  passes_agree_on_current_generation exampleExternals exampleReservoirOptions exampleOutput
    exampleWarm (by decide)

/-- C25. Photon workgroup count: the tracer dispatches
`g = ((p + 255) mod 2 ^ 32) / 256` workgroups for a 32-bit `photonsPerFrame`
value `p`.  For `p ≤ 2 ^ 32 - 256` this is the rounded-up quotient of `p` by
256: `256 * g ≥ p` and, for `p > 0`, `256 * (g - 1) < p`.  For
`p > 2 ^ 32 - 256` the addition wraps and `g = 0`. -/
theorem photon_workgroups_cover_budget (o : Options) (s : DxvkReSTIRFG) (t : List Cmd)
    (h : tracePhotons o s = some t) (hp : o.photonsPerFrame < 2 ^ 32) :
    ∃ g, dispatchSizesOf t = [(g, 1, 1)] ∧
      (o.photonsPerFrame ≤ 2 ^ 32 - 256 →
        g = (o.photonsPerFrame + 255) / 256 ∧
        256 * g ≥ o.photonsPerFrame ∧
        (0 < o.photonsPerFrame → 256 * (g - 1) < o.photonsPerFrame)) ∧
      (2 ^ 32 - 256 < o.photonsPerFrame → g = 0) := by
  obtain ⟨_, _, _, hd, _⟩ := tracePhotons_eq_some o s t h
  refine ⟨_, hd, ?_, ?_⟩
  · intro hle
    simp only [u32]
    omega
  · intro hgt
    simp only [u32]
    omega

/-- Witness of C25 with the default `photonsPerFrame = 100000`: 391
workgroups, `256 * 391 = 100096` and `256 * 390 = 99840`. -/
theorem photon_workgroups_cover_budget_witness :
    ∃ g, dispatchSizesOf
        ((tracePhotons Options.defaults exampleCreated).get (by decide)) = [(g, 1, 1)] ∧
      (Options.defaults.photonsPerFrame ≤ 2 ^ 32 - 256 →
        g = (Options.defaults.photonsPerFrame + 255) / 256 ∧
        256 * g ≥ Options.defaults.photonsPerFrame ∧
        (0 < Options.defaults.photonsPerFrame →
          256 * (g - 1) < Options.defaults.photonsPerFrame)) ∧
      (2 ^ 32 - 256 < Options.defaults.photonsPerFrame → g = 0) :=
  photon_workgroups_cover_budget Options.defaults exampleCreated _
    (Option.some_get _).symm (by decide)

/-- C27. Photon buffer sizing: for `photonsPerFrame = p` in
`[10000, 1000000]`, `createDownscaledResource` makes the photon buffer with
exactly `64 * p` bytes, each AABB buffer with exactly `48 * p` bytes and the
counter buffer with 16 bytes; and for `p = 2 ^ 26` the 32-bit product
`maxPhotons * 32` wraps to 0, so the photon buffer is smaller than `64 * p`
bytes. -/
theorem photon_buffer_sizes (x : Externals) (o : Options) (e : VkExtent3D)
    (s0 : DxvkReSTIRFG) (hlo : 10000 ≤ o.photonsPerFrame)
    (hhi : o.photonsPerFrame ≤ 1000000) :
    ((createDownscaledResource x o e s0).m_photonBuffer.map DxvkBuffer.size =
        some (64 * o.photonsPerFrame) ∧
      (createDownscaledResource x o e s0).m_photonAABBBuffer_0.map DxvkBuffer.size =
        some (48 * o.photonsPerFrame) ∧
      (createDownscaledResource x o e s0).m_photonAABBBuffer_1.map DxvkBuffer.size =
        some (48 * o.photonsPerFrame) ∧
      (createDownscaledResource x o e s0).m_photonCounterBuffer.map DxvkBuffer.size =
        some 16) ∧
    ∃ p, 2 ^ 26 ≤ p ∧ p < 2 ^ 32 ∧
      ∃ size,
        (createDownscaledResource x { o with photonsPerFrame := p } e s0).m_photonBuffer.map
          DxvkBuffer.size = some size ∧
        size < 64 * p := by
  have h2 : (2 : Nat) ^ 32 = 4294967296 := by norm_num
  have h3 : (2 : Nat) ^ 64 = 18446744073709551616 := by norm_num
  have e1 : o.photonsPerFrame * 2 % 4294967296 = o.photonsPerFrame * 2 :=
    Nat.mod_eq_of_lt (by omega)
  have e2 : o.photonsPerFrame * 2 * 24 % 18446744073709551616 = o.photonsPerFrame * 2 * 24 :=
    Nat.mod_eq_of_lt (by omega)
  refine ⟨⟨?_, ?_, ?_, rfl⟩, 2 ^ 26, le_refl _, by norm_num, 0, ?_, by norm_num⟩
  · simp only [createDownscaledResource, createBuffer, Option.map_some', u32, h2,
      Option.some.injEq]
    omega
  · simp only [createDownscaledResource, createBuffer, Option.map_some', u32, u64, h2, h3,
      sizeof_VkAabbPositionsKHR, Option.some.injEq, e1, e2]
    omega
  · simp only [createDownscaledResource, createBuffer, Option.map_some', u32, u64, h2, h3,
      sizeof_VkAabbPositionsKHR, Option.some.injEq, e1, e2]
    omega
  · simp only [createDownscaledResource, createBuffer, Option.map_some', u32,
      Option.some.injEq]
    norm_num

/-- Witness of C27 with the default `photonsPerFrame = 100000`. -/
theorem photon_buffer_sizes_witness :
    (exampleCreated.m_photonBuffer.map DxvkBuffer.size = some (64 * 100000) ∧
      exampleCreated.m_photonAABBBuffer_0.map DxvkBuffer.size = some (48 * 100000) ∧
      exampleCreated.m_photonAABBBuffer_1.map DxvkBuffer.size = some (48 * 100000) ∧
      exampleCreated.m_photonCounterBuffer.map DxvkBuffer.size = some 16) ∧
    ∃ p, 2 ^ 26 ≤ p ∧ p < 2 ^ 32 ∧
      ∃ size,
        (createDownscaledResource exampleExternals
          { Options.defaults with photonsPerFrame := p } exampleExtent
          DxvkReSTIRFG.constructed).m_photonBuffer.map DxvkBuffer.size = some size ∧
        size < 64 * p :=
  photon_buffer_sizes exampleExternals Options.defaults exampleExtent
    DxvkReSTIRFG.constructed (by decide) (by decide)

/-! ## Lemmas on the scratch address -/

/-- Masking a 64-bit value with the complement of `2 ^ k - 1` rounds it down to
a multiple of `2 ^ k`. -/
theorem land_not_pow_two (y k : Nat) (hk : k ≤ 64) (hy : y < 2 ^ 64) :
    Nat.land y (2 ^ 64 - 2 ^ k) = y / 2 ^ k * 2 ^ k := by
  have hpos : 0 < 2 ^ k := Nat.two_pow_pos k
  have hle : 2 ^ k ≤ 2 ^ 64 := Nat.pow_le_pow_right (by norm_num) hk
  have hm : 2 ^ 64 - 2 ^ k = 2 ^ 64 - ((2 ^ k - 1) + 1) := by
    rw [Nat.sub_add_cancel hpos]
  have hx : 2 ^ k - 1 < 2 ^ 64 := by omega
  apply Nat.eq_of_testBit_eq
  intro i
  show (y &&& (2 ^ 64 - 2 ^ k)).testBit i = (y / 2 ^ k * 2 ^ k).testBit i
  rw [Nat.testBit_and, hm, Nat.testBit_two_pow_sub_succ hx, Nat.testBit_two_pow_sub_one,
    ← Nat.shiftRight_eq_div_pow, ← Nat.shiftLeft_eq, Nat.testBit_shiftLeft,
    Nat.testBit_shiftRight]
  by_cases hik : i < k
  · simp [hik, Nat.not_le.mpr hik]
  · have hki : k ≤ i := Nat.le_of_not_lt hik
    have e : k + (i - k) = i := by omega
    rw [e]
    by_cases h64 : i < 64
    · simp [hik, hki, h64]
    · have hi : 64 ≤ i := Nat.le_of_not_lt h64
      have hy2 : y < 2 ^ i := lt_of_lt_of_le hy (Nat.pow_le_pow_right (by norm_num) hi)
      simp [Nat.testBit_lt_two_pow hy2]

/-- The aligned scratch address is the base address rounded up to a multiple
of the alignment, when the alignment is a power of two and the sum does not
leave the 64-bit address space. -/
theorem alignScratchAddress_eq (addr k : Nat) (h : addr + 2 ^ k ≤ 2 ^ 64) :
    alignScratchAddress addr (2 ^ k) = (addr + 2 ^ k - 1) / 2 ^ k * 2 ^ k := by
  have hpos : 0 < 2 ^ k := Nat.two_pow_pos k
  have hk : k ≤ 64 := by
    by_contra hc
    have : 2 ^ 65 ≤ 2 ^ k := Nat.pow_le_pow_right (by norm_num) (by omega)
    have h65 : (2 : Nat) ^ 65 = 2 * 2 ^ 64 := by norm_num
    omega
  have h64 : (2 : Nat) ^ 64 = 18446744073709551616 := by norm_num
  have e1 : dec64 (u64 (addr + 2 ^ k)) = addr + 2 ^ k - 1 := by
    simp only [dec64, u64, h64] at *
    omega
  have e2 : not64 (dec64 (2 ^ k)) = 2 ^ 64 - 2 ^ k := by
    simp only [not64, dec64, u64, h64] at *
    omega
  unfold alignScratchAddress
  rw [e1, e2]
  exact land_not_pow_two _ k hk (by omega)

/-- Rounding up to a multiple of `a` stays below `addr + a`. -/
theorem round_up_bounds (addr a : Nat) (ha : 0 < a) :
    a ∣ (addr + a - 1) / a * a ∧ addr ≤ (addr + a - 1) / a * a ∧
    (addr + a - 1) / a * a < addr + a := by
  have h1 := Nat.div_add_mod (addr + a - 1) a
  have h2 := Nat.mod_lt (addr + a - 1) ha
  rw [Nat.mul_comm] at h1
  refine ⟨Nat.dvd_mul_left _ _, ?_, ?_⟩ <;> omega

/-- The scratch buffer after the size check has at least the required size. -/
theorem createScratchBuffer_size (x : Externals) (n : Nat) (s : DxvkReSTIRFG) :
    ∃ b, (createScratchBuffer x n s).m_photonScratchBuffer = some b ∧ n ≤ b.size := by
  unfold createScratchBuffer
  cases h : s.m_photonScratchBuffer with
  | none => exact ⟨createBuffer x n "ReSTIR-FG Photon Scratch", by simp, le_refl _⟩
  | some b =>
    by_cases hlt : b.size < n
    · exact ⟨createBuffer x n "ReSTIR-FG Photon Scratch", by simp [hlt], le_refl _⟩
    · exact ⟨b, by simp [hlt, h], Nat.le_of_not_lt hlt⟩
/-- The scratch buffer and the scratch address of the index build. -/
theorem build_scratch (x : Externals) (o : Options) (s : DxvkReSTIRFG)
    (r : DxvkReSTIRFG × List Cmd)
    (h : buildPhotonAccelerationStructure x o s = some r) :
    ∃ scratch info ranges, r.1.m_photonScratchBuffer = some scratch ∧
      buildCommandsOf r.2 = [(info, ranges)] ∧
      info.scratchDataDeviceAddress =
        alignScratchAddress scratch.deviceAddress x.scratchAlignment ∧
      u64 (x.buildScratchSize [o.photonsPerFrame, o.photonsPerFrame] + x.scratchAlignment)
        ≤ scratch.size := by
  simp only [buildPhotonAccelerationStructure, Option.bind_eq_bind, Option.bind_eq_some,
    Option.pure_def, Option.some.injEq] at h
  obtain ⟨a0, _, a1, _, d, _, sc, hsc, b, _, rfl⟩ := h
  obtain ⟨sc2, h2, hsize⟩ := createScratchBuffer_size x
    (u64 (x.buildScratchSize [o.photonsPerFrame, o.photonsPerFrame] + x.scratchAlignment))
    (createOrResizeAccelStructure x
      (x.accelerationStructureSize [o.photonsPerFrame, o.photonsPerFrame]) s)
  rw [hsc, Option.some.injEq] at h2
  subst h2
  exact ⟨sc, _, _, hsc, rfl, rfl, hsize⟩

/-- C26. Scratch alignment.  For every base address, every power-of-two
alignment `a = 2 ^ k` and every buffer of at least `buildScratchSize + a`
bytes inside the 64-bit address space, the address
`(addr + a - 1) & ~(a - 1)` is a multiple of `a`, lies in `[addr, addr + a)`,
and the region of `buildScratchSize` bytes from it ends inside the buffer.
In `buildPhotonAccelerationStructure` the scratch buffer kept or created by
the size check has at least `buildScratchSize + a` bytes, and the address put
into the build info is that aligned address of that buffer. -/
theorem scratch_address_aligned (x : Externals) (o : Options) (s : DxvkReSTIRFG)
    (r : DxvkReSTIRFG × List Cmd) (k : Nat)
    (h : buildPhotonAccelerationStructure x o s = some r)
    (ha : x.scratchAlignment = 2 ^ k)
    (hno : x.buildScratchSize [o.photonsPerFrame, o.photonsPerFrame] + x.scratchAlignment
      < 2 ^ 64)
    (hfit : ∀ b, r.1.m_photonScratchBuffer = some b → b.deviceAddress + b.size ≤ 2 ^ 64) :
    (∀ addr size buildScratchSize, buildScratchSize + 2 ^ k ≤ size →
      addr + size ≤ 2 ^ 64 →
        2 ^ k ∣ alignScratchAddress addr (2 ^ k) ∧
        addr ≤ alignScratchAddress addr (2 ^ k) ∧
        alignScratchAddress addr (2 ^ k) < addr + 2 ^ k ∧
        alignScratchAddress addr (2 ^ k) + buildScratchSize ≤ addr + size) ∧
    ∃ scratch info ranges, r.1.m_photonScratchBuffer = some scratch ∧
      buildCommandsOf r.2 = [(info, ranges)] ∧
      x.buildScratchSize [o.photonsPerFrame, o.photonsPerFrame] + x.scratchAlignment
        ≤ scratch.size ∧
      info.scratchDataDeviceAddress =
        alignScratchAddress scratch.deviceAddress x.scratchAlignment ∧
      x.scratchAlignment ∣ info.scratchDataDeviceAddress ∧
      scratch.deviceAddress ≤ info.scratchDataDeviceAddress ∧
      info.scratchDataDeviceAddress < scratch.deviceAddress + x.scratchAlignment ∧
      info.scratchDataDeviceAddress +
          x.buildScratchSize [o.photonsPerFrame, o.photonsPerFrame] ≤
        scratch.deviceAddress + scratch.size := by
  have hpos : 0 < 2 ^ k := Nat.two_pow_pos k
  have hpure : ∀ addr size buildScratchSize, buildScratchSize + 2 ^ k ≤ size →
      addr + size ≤ 2 ^ 64 →
        2 ^ k ∣ alignScratchAddress addr (2 ^ k) ∧
        addr ≤ alignScratchAddress addr (2 ^ k) ∧
        alignScratchAddress addr (2 ^ k) < addr + 2 ^ k ∧
        alignScratchAddress addr (2 ^ k) + buildScratchSize ≤ addr + size := by
    intro addr size bss hsz hfit2
    rw [alignScratchAddress_eq addr k (by omega)]
    obtain ⟨h1, h2, h3⟩ := round_up_bounds addr (2 ^ k) hpos
    refine ⟨h1, h2, h3, ?_⟩
    omega
  refine ⟨hpure, ?_⟩
  obtain ⟨scratch, info, ranges, hs, hb, haddr, hsize⟩ := build_scratch x o s r h
  have hu : u64 (x.buildScratchSize [o.photonsPerFrame, o.photonsPerFrame] +
      x.scratchAlignment) =
      x.buildScratchSize [o.photonsPerFrame, o.photonsPerFrame] + x.scratchAlignment :=
    Nat.mod_eq_of_lt hno
  rw [hu] at hsize
  have hf := hfit scratch hs
  rw [ha] at hsize
  obtain ⟨p1, p2, p3, p4⟩ := hpure scratch.deviceAddress scratch.size
    (x.buildScratchSize [o.photonsPerFrame, o.photonsPerFrame]) hsize hf
  refine ⟨scratch, info, ranges, hs, hb, ?_, haddr, ?_, ?_, ?_, ?_⟩
  · rw [ha]; exact hsize
  · rw [haddr, ha]; exact p1
  · rw [haddr, ha]; exact p2
  · rw [haddr, ha]; exact p3
  · rw [haddr, ha]; exact p4

/-- Witness of C26: the index build on the created object with a 128-byte
alignment, and the rounding of the unaligned address 1000 to 1024. -/
theorem scratch_address_aligned_witness :
    (alignScratchAddress 1000 (2 ^ 7) = 1024 ∧
      2 ^ 7 ∣ alignScratchAddress 1000 (2 ^ 7) ∧
      1000 ≤ alignScratchAddress 1000 (2 ^ 7) ∧
      alignScratchAddress 1000 (2 ^ 7) < 1000 + 2 ^ 7 ∧
      alignScratchAddress 1000 (2 ^ 7) + 4096 ≤ 1000 + 5000) ∧
    ∃ scratch info ranges,
      ((buildPhotonAccelerationStructure exampleExternals Options.defaults
          exampleCreated).get (by decide)).1.m_photonScratchBuffer = some scratch ∧
      buildCommandsOf
          ((buildPhotonAccelerationStructure exampleExternals Options.defaults
            exampleCreated).get (by decide)).2 = [(info, ranges)] ∧
      exampleExternals.buildScratchSize [100000, 100000] + exampleExternals.scratchAlignment
        ≤ scratch.size ∧
      info.scratchDataDeviceAddress =
        alignScratchAddress scratch.deviceAddress exampleExternals.scratchAlignment ∧
      exampleExternals.scratchAlignment ∣ info.scratchDataDeviceAddress ∧
      scratch.deviceAddress ≤ info.scratchDataDeviceAddress ∧
      info.scratchDataDeviceAddress <
        scratch.deviceAddress + exampleExternals.scratchAlignment ∧
      info.scratchDataDeviceAddress + exampleExternals.buildScratchSize [100000, 100000] ≤
        scratch.deviceAddress + scratch.size :=
  have hfit : ∀ b,
      ((buildPhotonAccelerationStructure exampleExternals Options.defaults
          exampleCreated).get (by decide)).1.m_photonScratchBuffer = some b →
        b.deviceAddress + b.size ≤ 2 ^ 64 := by
    intro b hb
    have e : some b =
        some (createBuffer exampleExternals 3201152 "ReSTIR-FG Photon Scratch") :=
      hb.symm.trans (by decide)
    cases e
    decide
  ⟨⟨by decide,
      (scratch_address_aligned exampleExternals Options.defaults exampleCreated _ 7
        (Option.some_get _).symm (by decide) (by decide) hfit).1 1000 5000 4096
        (by decide) (by decide)⟩,
    (scratch_address_aligned exampleExternals Options.defaults exampleCreated _ 7
      (Option.some_get _).symm (by decide) (by decide) hfit).2⟩

/-- C21. Temporal merge cap, with the shader modelled from the spec: when
`M_curr + M_prev` is above `temporalHistoryLength`, the merged `M` is
`temporalHistoryLength` and the merged `weightSum` is the sum of the two
weight sums times `temporalHistoryLength / (M_curr + M_prev)`, so that
`weightSum / M` is the ratio of the uncapped merge (stated cross-multiplied,
and as a quotient when `temporalHistoryLength > 0`); otherwise `M` and
`weightSum` are the plain sums.  On the host side, the resample shader
declares the previous reservoir read-only and the current one read-write. -/
theorem temporal_merge_cap (temporalHistoryLength : Nat) (curr prev : Reservoir) :
    (temporalHistoryLength < curr.M + prev.M →
      temporalMergeM temporalHistoryLength curr prev = temporalHistoryLength ∧
      temporalMergeWeightSum temporalHistoryLength curr prev =
        (curr.weightSum + prev.weightSum) *
          ((temporalHistoryLength : Rat) / ((curr.M + prev.M : Nat) : Rat)) ∧
      temporalMergeWeightSum temporalHistoryLength curr prev *
          ((curr.M + prev.M : Nat) : Rat) =
        (curr.weightSum + prev.weightSum) *
          ((temporalMergeM temporalHistoryLength curr prev : Nat) : Rat) ∧
      (0 < temporalHistoryLength →
        temporalMergeWeightSum temporalHistoryLength curr prev /
            ((temporalMergeM temporalHistoryLength curr prev : Nat) : Rat) =
          (curr.weightSum + prev.weightSum) / ((curr.M + prev.M : Nat) : Rat))) ∧
    (curr.M + prev.M ≤ temporalHistoryLength →
      temporalMergeM temporalHistoryLength curr prev = curr.M + prev.M ∧
      temporalMergeWeightSum temporalHistoryLength curr prev =
        curr.weightSum + prev.weightSum) ∧
    (ParameterKind.STRUCTURED_BUFFER, RESTIR_FG_RESAMPLE_BINDING_RESERVOIR_PREV) ∈
      Shader.ReSTIRFGResampleShader.parameters ∧
    (ParameterKind.RW_STRUCTURED_BUFFER, RESTIR_FG_RESAMPLE_BINDING_RESERVOIR_CURR) ∈
      Shader.ReSTIRFGResampleShader.parameters := by
  refine ⟨?_, ?_, by decide, by decide⟩
  · intro hcap
    have hM : temporalMergeM temporalHistoryLength curr prev = temporalHistoryLength := by
      unfold temporalMergeM
      exact Nat.min_eq_right (Nat.le_of_lt hcap)
    have hW : temporalMergeWeightSum temporalHistoryLength curr prev =
        (curr.weightSum + prev.weightSum) *
          ((temporalHistoryLength : Rat) / ((curr.M + prev.M : Nat) : Rat)) := by
      unfold temporalMergeWeightSum
      rw [if_pos hcap]
    have hpos : (0 : Rat) < ((curr.M + prev.M : Nat) : Rat) := by
      exact_mod_cast Nat.lt_of_le_of_lt (Nat.zero_le _) hcap
    have hne : ((curr.M + prev.M : Nat) : Rat) ≠ 0 := ne_of_gt hpos
    refine ⟨hM, hW, ?_, ?_⟩
    · rw [hW, hM]
      generalize ((curr.M + prev.M : Nat) : Rat) = m at hne
      field_simp
    · intro hT
      have hTne : (temporalHistoryLength : Rat) ≠ 0 := by
        exact_mod_cast Nat.pos_iff_ne_zero.mp hT
      rw [hW, hM]
      generalize ((curr.M + prev.M : Nat) : Rat) = m at hne
      field_simp
      ring
  · intro hle
    constructor
    · unfold temporalMergeM
      exact Nat.min_eq_left hle
    · unfold temporalMergeWeightSum
      rw [if_neg (Nat.not_lt.mpr hle)]

end dxvk
